import Mathlib

/-!
Verification of the LangGraph orchestration core of `jeff-the-langgraph-chef`.

Shallow embedding notes, applying to the whole file:
* Python strings are modelled as Lean `String` / `List Char`; `str.lower()` is
  modelled by an ASCII lowering function (every vocabulary table in the source
  is ASCII, so the two agree on all table lookups).
* Python `x in s` substring tests are modelled by `lcContains`; `re.search`
  over the source's pattern tables is modelled by `lcSeqMatch` on the literal
  segments around `.*` (the only regex metacharacters the tables use); a
  pattern `lit1.*lit2` matches iff `lit1` occurs and `lit2` occurs after the
  first occurrence of `lit1`, which agrees with the backtracking semantics of
  `re.search` on newline-free text.
* Python floats are modelled by exact rationals: every score in the source is
  built from decimal literals, integer counts, division, `min`/`max` and
  comparison, and the source performs no float-rounding-sensitive
  computation.  To keep the whole development kernel-computable the model
  uses an explicit numerator/denominator pair type `Q` (the library `Rat`'s
  arithmetic is `@[irreducible]` here); `Q.toRat` maps it to `ℚ`, and
  claim-level numeric statements are phrased through `toRat`.  All `Q`
  values built by the model have positive denominators, so the
  cross-multiplication order of `Q` agrees with the order of `ℚ`.
* Wall-clock data (timestamps, durations, stage-duration metrics) is not
  modelled; fields of the state that only mirror other modelled fields for
  monitoring (`node_call_count`) are likewise dropped.  All control-flow
  relevant fields are modelled.
-/

/-! ## Exact rational arithmetic (model of Python floats) -/

/-- An exact rational as a numerator/denominator pair.  Values are not kept
normalised; every value the model builds has a positive denominator. -/
structure Q where
  num : Int
  den : Nat
deriving DecidableEq, Repr

instance (n : Nat) : OfNat Q n := ⟨⟨n, 1⟩⟩
instance : NatCast Q := ⟨fun n => ⟨n, 1⟩⟩

instance : Add Q := ⟨fun a b => ⟨a.num * b.den + b.num * a.den, a.den * b.den⟩⟩
instance : Mul Q := ⟨fun a b => ⟨a.num * b.num, a.den * b.den⟩⟩
instance : Sub Q := ⟨fun a b => ⟨a.num * b.den - b.num * a.den, a.den * b.den⟩⟩

/-- Reciprocal (the model never inverts zero on any reachable path). -/
def Q.inv (a : Q) : Q :=
  if a.num < 0 then ⟨-(a.den : Int), a.num.natAbs⟩
  else if a.num = 0 then ⟨0, 1⟩
  else ⟨(a.den : Int), a.num.natAbs⟩

instance : Div Q := ⟨fun a b => a * Q.inv b⟩

/-- Order by cross-multiplication (correct for positive denominators). -/
def Q.ble (a b : Q) : Bool := a.num * b.den ≤ b.num * a.den

/-- Semantic equality test by cross-multiplication (Python `==`). -/
def Q.beq (a b : Q) : Bool := a.num * b.den = b.num * a.den

instance : LE Q := ⟨fun a b => Q.ble a b = true⟩
instance : LT Q := ⟨fun a b => Q.ble b a = false⟩

instance (a b : Q) : Decidable (a ≤ b) :=
  inferInstanceAs (Decidable (Q.ble a b = true))
instance (a b : Q) : Decidable (a < b) :=
  inferInstanceAs (Decidable (Q.ble b a = false))

instance : Min Q := ⟨fun a b => if Q.ble a b then a else b⟩
instance : Max Q := ⟨fun a b => if Q.ble b a then a else b⟩

/-- Sum of a list of `Q` (Python `sum`). -/
def Q.sum (l : List Q) : Q := l.foldl (· + ·) 0

/-- The rational number denoted by a `Q` value. -/
def Q.toRat (a : Q) : ℚ := (a.num : ℚ) / (a.den : ℚ)

/-! ## Character-list string primitives -/

/-- ASCII lowering of a single character, modelling `str.lower()` on the
ASCII range (all source vocabularies are ASCII). -/
def asciiLowerChar (c : Char) : Char :=
  if 'A' ≤ c ∧ c ≤ 'Z' then Char.ofNat (c.toNat + 32) else c

/-- ASCII lowering of a character list. -/
def asciiLower (s : List Char) : List Char := s.map asciiLowerChar

/-- `lcContains needle hay`: does `needle` occur as a contiguous substring of
`hay`?  Models Python's `needle in hay`. -/
def lcContains (needle : List Char) : List Char → Bool
  | [] => needle.isEmpty
  | c :: t => needle.isPrefixOf (c :: t) || lcContains needle t

/-- The remainder of `hay` after the first occurrence of `needle`, or `none`
when `needle` does not occur. -/
def lcDropToAfter (needle : List Char) : List Char → Option (List Char)
  | [] => if needle.isEmpty then some [] else none
  | c :: t =>
    if needle.isPrefixOf (c :: t) then some ((c :: t).drop needle.length)
    else lcDropToAfter needle t

/-- Sequential-segment matching: `lcSeqMatch [l1, l2, …] hay` holds iff
`l1`, `l2`, … occur in `hay` in order, each after the previous one.  This is
`re.search` for the source's patterns `l1.*l2.*…` on newline-free text. -/
def lcSeqMatch : List (List Char) → List Char → Bool
  | [], _ => true
  | n :: rest, hay =>
    match lcDropToAfter n hay with
    | none => false
    | some r => lcSeqMatch rest r

/-- Substring test on `String`s (Python `needle in hay`). -/
def strContains (hay needle : String) : Bool := lcContains needle.data hay.data

/-- A whitespace test for Python's `str.strip()`. -/
def pyIsSpace (c : Char) : Bool :=
  c = ' ' || c = '\t' || c = '\n' || c = '\r' || c = '\x0b' || c = '\x0c'

/-- Python `str.strip()` on a character list. -/
def lcStrip (s : List Char) : List Char :=
  ((s.dropWhile pyIsSpace).reverse.dropWhile pyIsSpace).reverse

/-- Python `hay.replace(old, new)` (all occurrences, left to right).  The
source only calls this with nonempty `old`. -/
def lcReplace (old new : List Char) (hay : List Char) : List Char :=
  if h : old.isEmpty ∨ hay.isEmpty then hay
  else if old.isPrefixOf hay then new ++ lcReplace old new (hay.drop old.length)
  else hay.take 1 ++ lcReplace old new (hay.drop 1)
termination_by hay.length
decreasing_by
  · simp only [not_or, List.isEmpty_iff] at h
    have h1 : 0 < old.length := List.length_pos.mpr h.1
    have h2 : 0 < hay.length := List.length_pos.mpr h.2
    simp only [List.length_drop]
    omega
  · simp only [not_or, List.isEmpty_iff] at h
    have h2 : 0 < hay.length := List.length_pos.mpr h.2
    simp only [List.length_drop]
    omega

/-- Python `str.replace` on `String`s. -/
def strReplace (hay old new : String) : String :=
  ⟨lcReplace old.data new.data hay.data⟩

/-- `str.lower()` on `String`s (ASCII model). -/
def strLower (s : String) : String := ⟨asciiLower s.data⟩

/-- Nonemptiness of a string, as a Bool. -/
def strNonEmpty (s : String) : Bool := !s.data.isEmpty

/-! ## Enumerations from `langgraph_workflow/state.py` -/

/-- `WorkflowStage` — the workflow-stage enum of `state.py`. -/
inductive WorkflowStage where
  | input_received
  | personality_applied
  | content_routed
  | processing
  | quality_checked
  | output_formatted
  | completed
  | error
deriving DecidableEq, Repr

/-- `ContentType` — the content-category enum of `state.py`, with exactly the
members declared there (`state.py` lines 27–38). -/
inductive ContentType where
  | recipe_request
  | cooking_question
  | ingredient_inquiry
  | technique_question
  | general_chat
  | recipe_review
  | meal_planning
  | food_pairing
  | nutrition_question
  | cooking_tips
deriving DecidableEq, Repr

/-- The string value of each `ContentType` member, as declared in `state.py`. -/
def ContentType.value : ContentType → String
  | .recipe_request => "recipe_request"
  | .cooking_question => "cooking_question"
  | .ingredient_inquiry => "ingredient_inquiry"
  | .technique_question => "technique_question"
  | .general_chat => "general_chat"
  | .recipe_review => "recipe_review"
  | .meal_planning => "meal_planning"
  | .food_pairing => "food_pairing"
  | .nutrition_question => "nutrition_question"
  | .cooking_tips => "cooking_tips"

/-- `ProcessingPriority` from `state.py`. -/
inductive ProcessingPriority where
  | low
  | normal
  | high
  | urgent
deriving DecidableEq, Repr

/-- `MoodState` from `personality/models.py`. -/
inductive MoodState where
  | ecstatic
  | enthusiastic
  | romantic
  | contemplative
  | playful
  | passionate
  | serene
  | mischievous
  | nostalgic
  | inspired
deriving DecidableEq, Repr

/-- The string value of a `MoodState` member. -/
def MoodState.value : MoodState → String
  | .ecstatic => "ecstatic"
  | .enthusiastic => "enthusiastic"
  | .romantic => "romantic"
  | .contemplative => "contemplative"
  | .playful => "playful"
  | .passionate => "passionate"
  | .serene => "serene"
  | .mischievous => "mischievous"
  | .nostalgic => "nostalgic"
  | .inspired => "inspired"

/-! ## Intent classification (`InputProcessorNode`, `nodes.py` lines 103–194)

Each regex pattern is transcribed as the list of its literal segments around
`.*` (the only metacharacter used by the tables). -/

/-- The intent-pattern table of `nodes.py` `_initialize_intent_patterns`
(the `input_processor_node.py` variant additionally keys an image-request
entry on a `ContentType` member that does not exist; see `c10_enum_gap`). -/
def intent_patterns : List (ContentType × List (List String)) :=
  [ (.recipe_request,
     [["recipe for"], ["how to make"], ["how do i cook"], ["show me", "recipe"],
      ["i want to make"], ["cooking", "recipe"]]),
    (.cooking_question,
     [["how to", "cook"], ["what", "temperature"], ["how long", "cook"],
      ["cooking time"], ["cooking method"]]),
    (.ingredient_inquiry,
     [["what is", "ingredient"], ["substitute for"], ["instead of"],
      ["replace", "with"], ["ingredient", "substitute"]]),
    (.technique_question,
     [["how to", "technique"], ["what", "method"], ["cooking technique"],
      ["how do you", "technique"]]),
    (.food_pairing,
     [["goes well with"], ["pair", "with"], ["what", "with"], ["complement"]]),
    (.nutrition_question,
     [["calories"], ["nutrition"], ["healthy"], ["diet"], ["nutritious"]]) ]

/-- Whether one pattern (list of literal segments) matches the lowered text. -/
def patternMatches (textLower : List Char) (pat : List String) : Bool :=
  lcSeqMatch (pat.map String.data) textLower

/-- `score / len(patterns)` for one category, as in `_classify_intent`. -/
def categoryScore (textLower : List Char) (pats : List (List String)) : Q :=
  ((pats.filter (patternMatches textLower)).length : Q) / (pats.length : Q)

/-- `InputProcessorNode._classify_intent`: score each category, keep the
positive scores, return the first maximal one (Python `max` over an
insertion-ordered dict returns the first maximum), capped at 1; the default
is `(GENERAL_CHAT, 0.3)`. -/
def classify_intent (text : String) : ContentType × Q :=
  let tl := asciiLower text.data
  let scores := (intent_patterns.map (fun p => (p.1, categoryScore tl p.2))).filter
    (fun p => 0 < p.2)
  match scores with
  | [] => (.general_chat, 3/10)
  | s :: rest =>
    let best := rest.foldl (fun b x => if b.2 < x.2 then x else b) s
    (best.1, min best.2 1)

/-! ## Entity extraction (`nodes.py` lines 196–251) -/

/-- The fixed extraction vocabularies of `_extract_entities`. -/
def common_ingredients : List String :=
  ["tomato", "tomatoes", "onion", "garlic", "chicken", "beef", "pork",
   "pasta", "rice", "potato", "carrot", "celery", "mushroom", "pepper",
   "salt", "oil", "butter", "cheese", "herbs", "spices"]

def technique_vocab : List String :=
  ["roast", "bake", "fry", "sauté", "grill", "steam", "boil",
   "simmer", "braise", "poach", "blanch", "marinate"]

def cuisine_vocab : List String :=
  ["italian", "french", "chinese", "mexican", "indian", "thai",
   "japanese", "mediterranean", "american", "spanish"]

def dietary_vocab : List String :=
  ["vegetarian", "vegan", "gluten-free", "dairy-free", "keto",
   "paleo", "low-carb", "low-fat", "sugar-free"]

/-- The entity map built by `_extract_entities` (`equipment` and
`measurements` are always left empty by the source). -/
structure Entities where
  ingredients : List String := []
  techniques : List String := []
  cuisine_types : List String := []
  dietary_restrictions : List String := []
  equipment : List String := []
  measurements : List String := []
deriving DecidableEq, Repr

/-- `InputProcessorNode._extract_entities` (`nodes.py` variant): substring
matching of the fixed vocabularies against the lowered text. -/
def extract_entities (text : String) : Entities :=
  let tl := asciiLower text.data
  { ingredients := common_ingredients.filter (fun w => lcContains w.data tl)
    techniques := technique_vocab.filter (fun w => lcContains w.data tl)
    cuisine_types := cuisine_vocab.filter (fun w => lcContains w.data tl)
    dietary_restrictions := dietary_vocab.filter (fun w => lcContains w.data tl) }

/-- `InputProcessorNode._determine_priority`. -/
def determine_priority (text : String) (ct : ContentType) : ProcessingPriority :=
  let tl := asciiLower text.data
  if ["urgent", "emergency", "now", "immediately", "asap"].any
      (fun w => lcContains w.data tl) then .urgent
  else if ct = .recipe_request ∨ ct = .cooking_question then .high
  else .normal

/-! ## Image-request parsing (`input_processor_node.py` lines 189–226) -/

/-- The request-prefix phrases stripped by `_extract_image_description`. -/
def image_request_phrases : List String :=
  ["image of", "picture of", "photo of", "show me an image of",
   "create an image of", "generate an image of", "draw a picture of",
   "make an image of", "create a picture of"]

/-- `InputProcessorNode._extract_image_description`: lowercase, strip the
first matching request-prefix phrase, and return the stripped remainder
(`none` when it is empty). -/
def extract_image_description (text : String) : Option String :=
  let d0 := asciiLower text.data
  let d := match image_request_phrases.find? (fun p => p.data.isPrefixOf d0) with
    | some p => lcStrip (d0.drop p.data.length)
    | none => d0
  if d.isEmpty then none else some ⟨d⟩

/-- The style-keyword table of `_extract_image_style`. -/
def style_keywords : List (String × String) :=
  [("romantic", "romantic_dinner"), ("elegant", "elegant_plating"),
   ("rustic", "rustic_kitchen"), ("restaurant", "restaurant_style"),
   ("cooking", "cooking_process"), ("close-up", "ingredient_focus"),
   ("macro", "ingredient_focus")]

/-- `InputProcessorNode._extract_image_style`: first style keyword occurring
in the lowered text wins. -/
def extract_image_style (text : String) : Option String :=
  let tl := asciiLower text.data
  (style_keywords.find? (fun kv => lcContains kv.1.data tl)).map (·.2)

/-! ## Quality scoring heuristics

`PersonalityEngine._calculate_consistency_score` (`personality/engine.py`
lines 289–337), `PersonalityEngine._extract_romantic_elements` (lines
360–377), `PersonalityEngine._calculate_tomato_integration_score` (lines
339–358), and `TomatoIntegrationEngine.evaluate_tomato_integration_success`
(`personality/tomato_integration.py` lines 354–393). -/

/-- The romantic-term table of `_extract_romantic_elements`. -/
def romantic_terms : List String :=
  ["love", "heart", "soul", "passion", "embrace", "dance", "whisper",
   "beautiful", "elegant", "tender", "gentle", "caress", "romance"]

/-- `PersonalityEngine._extract_romantic_elements`. -/
def extract_romantic_elements (content : String) : List String :=
  if content.data.isEmpty then []
  else
    let cl := asciiLower content.data
    romantic_terms.filter (fun t => lcContains t.data cl)

/-- The romantic sub-score computed by
`QualityValidatorNode._perform_quality_checks` (`nodes.py` line 631):
`len(romantic_elements) / 10.0`. -/
def romantic_score (content : String) : Q :=
  ((extract_romantic_elements content).length : Q) / 10

/-- `PersonalityEngine._calculate_consistency_score`.  `obsession` is the
engine's own `tomato_obsession_level`; `history` its `_consistency_history`.
Characteristics 4 and 5 search the raw content, the others the lowered
content, exactly as in the source. -/
def calculate_consistency_score (content : String) (obsession : Nat)
    (history : List Q) : Q :=
  if content.data.isEmpty then 0
  else
    let cl := asciiLower content.data
    let raw := content.data
    let c1 : Nat := if ["love", "passion", "beautiful", "magnificent", "wonderful"].any
      (fun w => lcContains w.data cl) then 1 else 0
    let c2 : Nat := if ["flavor", "ingredient", "recipe", "cooking", "technique"].any
      (fun w => lcContains w.data cl) then 1 else 0
    let c3 : Nat := if ["heart", "soul", "embrace", "dance", "whisper"].any
      (fun w => lcContains w.data cl) then 1 else 0
    let c4 : Nat := if ["*", "imagine", "picture", "let me tell you"].any
      (fun w => lcContains w.data raw) then 1 else 0
    let c5 : Nat := if ["!", "absolutely", "utterly", "breathtaking"].any
      (fun w => lcContains w.data raw) then 1 else 0
    let c6 : Nat := if 8 ≤ obsession then (if lcContains "tomato".data cl then 1 else 0)
      else 1
    let score : Q := ((c1 + c2 + c3 + c4 + c5 + c6 : Nat) : Q) / 6
    let score : Q :=
      if !history.isEmpty then
        score * (7/10) + (Q.sum history / (history.length : Q)) * (3/10)
      else score
    max 0 (min 1 score)

/-- The `TomatoVariety` member values of `tomato_integration.py`. -/
def tomato_variety_values : List String :=
  ["cherry tomatoes", "roma tomatoes", "beefsteak tomatoes",
   "heirloom tomatoes", "sun-dried tomatoes", "tomato paste", "tomato sauce",
   "tomato puree", "fresh tomatoes", "canned tomatoes", "roasted tomatoes"]

/-- `TomatoIntegrationEngine.evaluate_tomato_integration_success`. -/
def evaluate_tomato_integration_success (content : String) (obsession : Nat) : Q :=
  if content.data.isEmpty then 0
  else
    let cl := asciiLower content.data
    let score : Q :=
      if lcContains "tomato".data cl then
        let varieties := (tomato_variety_values.filter
          (fun v => lcContains v.data cl)).length
        (1/2) + min (1/5) ((varieties : Q) * (1/20))
      else 0
    let related := (["ruby", "red", "vine", "garden", "sun-kissed", "juicy",
      "ripe", "fresh"].filter (fun w => lcContains w.data cl)).length
    let score := score + min (1/4) ((related : Q) * (1/20))
    let ocount := (["love", "passion", "obsess", "adore", "worship", "divine",
      "magnificent"].filter (fun w => lcContains w.data cl)).length
    let expected : Q := (obsession : Q) / 10
    let actual : Q := min (1/4) ((ocount : Q) * (1/20))
    let oscore : Q :=
      if 0 < expected then min (1/4) (actual / expected * (1/4))
      else if Q.beq actual 0 then 1/4 else actual
    min 1 (score + oscore)

/-- `PersonalityEngine._calculate_tomato_integration_score` (the engine's own
variant, used by `process_input`). -/
def calculate_tomato_integration_score (content : String) (obsession : Nat) : Q :=
  let cl := asciiLower content.data
  let score : Q := if lcContains "tomato".data cl then 1/2 else 0
  let related := (["ruby", "red", "vine", "garden", "sun-kissed", "juicy"].filter
    (fun w => lcContains w.data cl)).length
  let score := score + (related : Q) * (1/10)
  let score := if 8 ≤ obsession ∧ Q.beq score 0 then (2/10 : Q) else score
  min 1 score

/-! ## The workflow state (`JeffWorkflowState`, `state.py` lines 110–172)

Wall-clock fields (timestamps, durations), the long-lived conversation
context, and fields the orchestration core never branches on
(`user_intent`, `recipe_data`, `nutritional_info` …) are omitted; every
field read or written by the modelled control flow is present. -/

/-- A chat message (`role` is `"human"`, `"ai"`, or `"system"`). -/
structure Msg where
  role : String
  content : String
deriving DecidableEq, Repr

/-- Personality dimensions (`personality/models.py`), with the defaults of
the source (`9 / 8 / 7 / 1.5 / 0.5`). -/
structure PersonalityDimensions where
  tomato_obsession_level : Nat := 9
  romantic_intensity : Nat := 8
  energy_level : Nat := 7
  creativity_multiplier : Q := ⟨3, 2⟩
  professional_adaptation : Q := ⟨1, 2⟩
deriving DecidableEq, Repr

/-- Personality context (`personality/models.py`). -/
structure PersonalityContext where
  platform : Option String := none
  audience : Option String := none
  content_type : Option String := none
  formality_level : Q := ⟨3, 10⟩
  time_of_day : Option String := none
  seasonal_context : Option String := none
deriving DecidableEq, Repr

/-- A recorded mood transition (timestamp omitted). -/
structure MoodTransition where
  from_mood : MoodState
  to_mood : MoodState
  reason : String
deriving DecidableEq, Repr

/-- Personality state (`personality/models.py`), traits table omitted (the
orchestration core never reads it). -/
structure PersonalityState where
  dimensions : PersonalityDimensions := {}
  current_mood : MoodState := .enthusiastic
  context : PersonalityContext := {}
  consistency_score : Option Q := none
  mood_history : List MoodTransition := []
deriving DecidableEq, Repr

/-- `QualityCheckResult` (`state.py` lines 49–57). -/
structure QualityCheckResult where
  passed : Bool
  score : Q
  issues : List String
  suggestions : List String
  personality_consistency : Q
  tomato_integration : Q
  romantic_elements : Q
deriving DecidableEq, Repr

/-- `ProcessingError` (`state.py` lines 86–94; timestamp omitted). -/
structure ProcessingError where
  error_type : String
  error_message : String
  node_name : String
  retry_count : Nat := 0
  recoverable : Bool := true
  recovery_strategy : Option String := none
deriving DecidableEq, Repr

/-- `NodeExecutionInfo` (`state.py` lines 97–106; timing fields omitted). -/
structure NodeExecutionInfo where
  node_name : String
  success : Bool
deriving DecidableEq, Repr

/-- The modelled slice of `WorkflowMetrics` (counters only; times omitted,
and `node_call_count` is recoverable from the execution history). -/
structure WorkflowMetrics where
  quality_scores : List Q := []
  retry_count : Nat := 0
  error_count : Nat := 0
deriving DecidableEq, Repr

/-- The routing decision dict built by `ContentRouterNode`. -/
structure RoutingDecision where
  primary_path : String := "general_response"
  next_nodes : List String := ["response_generator"]
  requires_recipe_generation : Bool := false
  requires_knowledge_lookup : Bool := false
  requires_special_processing : Bool := false
deriving DecidableEq, Repr

/-- The processing-flag dict built by `ContentRouterNode`. -/
structure ProcessingFlags where
  apply_romantic_writing : Bool := true
  integrate_tomatoes : Bool := true
  use_memory_system : Bool := false
  generate_images : Bool := false
  multi_platform_adapt : Bool := false
  quality_gate_required : Bool := true
deriving DecidableEq, Repr

/-- The configuration snapshot `processing_config` (`state.py` lines
271–276).  Keys absent from the snapshot but read with defaults by
`_perform_quality_checks` are `Option`-valued. -/
structure ProcessingConfig where
  max_regeneration_attempts : Nat := 3
  quality_threshold : Q := ⟨9, 10⟩
  personality_weight : Option Q := none
  tomato_weight : Option Q := none
  romantic_weight : Option Q := none
deriving DecidableEq, Repr

/-- The feature-flag dict `features_enabled` (`state.py` lines 263–270),
with the defaults of `core/config.py`. -/
structure FeaturesEnabled where
  memory_system : Bool := true
  image_generation : Bool := true
  multi_platform : Bool := true
  quality_gates : Bool := true
  tomato_integration : Bool := true
  romantic_writing : Bool := true
deriving DecidableEq, Repr

/-- Output-format preferences (only `include_signature` is read by the
modelled nodes; absent means the Python `.get` default `True`). -/
structure FormatPreferences where
  include_signature : Option Bool := none
deriving DecidableEq, Repr

/-- The output-metadata record built by `OutputFormatterNode`
(timestamps/duration omitted). -/
structure OutputMetadata where
  content_type : Option ContentType
  personality_mood : MoodState
  quality_score : Q
  regeneration_count : Nat
  tomato_integration_score : Q
  romantic_elements_score : Q
deriving DecidableEq, Repr

/-- `JeffWorkflowState`. -/
structure WState where
  messages : List Msg
  current_stage : WorkflowStage
  content_type : Option ContentType
  processing_priority : ProcessingPriority
  workflow_complete : Bool
  raw_input : String
  processed_input : Option String
  extracted_entities : Option Entities
  confidence_score : Q
  personality_state : PersonalityState
  generated_content : Option String
  content_variations : List String
  selected_variation : Option String
  routing_decision : Option RoutingDecision
  processing_flags : Option ProcessingFlags
  quality_check_results : List QualityCheckResult
  regeneration_count : Nat
  quality_passed : Bool
  workflow_metrics : WorkflowMetrics
  node_execution_history : List NodeExecutionInfo
  errors : List ProcessingError
  last_error : Option ProcessingError
  recovery_attempts : Nat
  final_output : Option String
  output_metadata : Option OutputMetadata
  format_preferences : FormatPreferences
  features_enabled : FeaturesEnabled
  processing_config : ProcessingConfig
  session_id : String
deriving DecidableEq, Repr

/-- `StateManager.create_initial_state` (`state.py` lines 178–280). -/
def create_initial_state (user_input session_id : String) : WState :=
  { messages := [⟨"human", user_input⟩]
    current_stage := .input_received
    content_type := none
    processing_priority := .normal
    workflow_complete := false
    raw_input := user_input
    processed_input := none
    extracted_entities := none
    confidence_score := 0
    personality_state := {}
    generated_content := none
    content_variations := []
    selected_variation := none
    routing_decision := none
    processing_flags := none
    quality_check_results := []
    regeneration_count := 0
    quality_passed := false
    workflow_metrics := {}
    node_execution_history := []
    errors := []
    last_error := none
    recovery_attempts := 0
    final_output := none
    output_metadata := none
    format_preferences := {}
    features_enabled := {}
    processing_config := {}
    session_id := session_id }

/-- `StateManager.update_stage` (duration bookkeeping omitted). -/
def update_stage (s : WState) (new_stage : WorkflowStage) : WState :=
  { s with current_stage := new_stage }

/-- `StateManager.add_error` (`state.py` lines 304–318). -/
def add_error (s : WState) (e : ProcessingError) : WState :=
  { s with errors := s.errors ++ [e]
           last_error := some e
           current_stage := .error
           workflow_metrics :=
             { s.workflow_metrics with error_count := s.workflow_metrics.error_count + 1 } }

/-- `StateManager.add_quality_check` (`state.py` lines 320–331). -/
def add_quality_check (s : WState) (q : QualityCheckResult) : WState :=
  { s with quality_check_results := s.quality_check_results ++ [q]
           quality_passed := q.passed
           workflow_metrics :=
             { s.workflow_metrics with
                 quality_scores := s.workflow_metrics.quality_scores ++ [q.score] } }

/-- `StateManager.record_node_execution` (`state.py` lines 333–352;
`node_call_count` mirror omitted). -/
def record_node_execution (s : WState) (info : NodeExecutionInfo) : WState :=
  { s with node_execution_history := s.node_execution_history ++ [info] }

/-- `StateManager.is_regeneration_needed` (`state.py` lines 384–397).  The
source also reads `quality_threshold` into a dead local. -/
def is_regeneration_needed (s : WState) : Bool :=
  match s.quality_check_results.getLast? with
  | none => true
  | some latest =>
    !latest.passed && s.regeneration_count < s.processing_config.max_regeneration_attempts

/-- `StateManager.finalize_workflow` (`state.py` lines 413–436; metric
timestamps omitted).  Field-update order follows the source: final output,
completion flag, stage, then the appended AI message. -/
def finalize_workflow (s : WState) (final_output : String) : WState :=
  let s := { s with final_output := some final_output }
  let s := { s with workflow_complete := true }
  let s := { s with current_stage := .completed }
  { s with messages := s.messages ++ [⟨"ai", final_output⟩] }

/-! ## The stage execution contract (`base_node.py` / `nodes.py` `BaseNode`) -/

/-- A Python exception, by type name and message. -/
structure PyExc where
  type_name : String
  message : String
deriving DecidableEq, Repr

/-- `BaseNode._is_recoverable_error` (`base_node.py` lines 80–88): an
exception is recoverable exactly when its type name is in the fixed list. -/
def is_recoverable_error (exc_type : String) : Bool :=
  ["RateLimitError", "TimeoutError", "ConnectionError", "APIError"].contains exc_type

/-- `BaseNode.execute` (`base_node.py` lines 35–74): run the stage-specific
logic; on success append a successful execution record; on any exception
append a structured error, set the ERROR stage, append a failed execution
record, and return the state without re-raising (the model is a total
function, so non-re-raising is by construction). -/
def base_node_execute (node_name : String)
    (logic : WState → Except PyExc WState) (s : WState) : WState :=
  match logic s with
  | .ok s' => record_node_execution s' ⟨node_name, true⟩
  | .error e =>
    let s := add_error s
      { error_type := e.type_name, error_message := e.message,
        node_name := node_name, recoverable := is_recoverable_error e.type_name }
    record_node_execution s ⟨node_name, false⟩

/-- The exception raised by an injected always-failing stage (spec §8,
error-containment scenario). -/
def injected_exception : PyExc := ⟨"InjectedStageError", "injected failure"⟩

/-- A node execution with optional failure injection: when `fail_at` names
this node its logic raises, modelling "a stage that always raises". -/
def exec_node (node_name : String) (logic : WState → Except PyExc WState)
    (fail_at : Option String) (s : WState) : WState :=
  base_node_execute node_name
    (fun st => if fail_at = some node_name then .error injected_exception else logic st) s

/-! ## Concrete stage logics (`nodes.py`) -/

/-- `InputProcessorNode._execute_logic` (`nodes.py` lines 149–173). -/
def input_processor_logic (s : WState) : Except PyExc WState :=
  let c := classify_intent s.raw_input
  let ents := extract_entities s.raw_input
  let prio := determine_priority s.raw_input c.1
  .ok (update_stage
    { s with content_type := some c.1, confidence_score := c.2,
             extracted_entities := some ents, processing_priority := prio,
             processed_input := some ⟨lcStrip s.raw_input.data⟩ }
    .personality_applied)

/-- `PersonalityFilterNode._execute_logic` (`nodes.py` lines 277–307).  The
persona engine's content production is an excluded collaborator (spec §1);
the personality state it returns is taken as an oracle (`filter_state`).
The control-flow hazard of the source is kept: when `processed_input` is
`None` (a failed input stage), `engine.process_input` crashes on
`content.lower()` with an `AttributeError`. -/
def personality_filter_logic (filter_state : PersonalityState) (s : WState) :
    Except PyExc WState :=
  match s.processed_input with
  | none => .error ⟨"AttributeError", "NoneType object has no attribute lower"⟩
  | some _ => .ok (update_stage { s with personality_state := filter_state } .content_routed)

/-- `ContentRouterNode._make_routing_decision` (`nodes.py` lines 338–392). -/
def make_routing_decision (ct : Option ContentType) (confidence : Q) : RoutingDecision :=
  let rd : RoutingDecision := {}
  match ct with
  | none => rd
  | some ct =>
    let rd :=
      if ct = .recipe_request then
        { rd with primary_path := "recipe_generation",
                  next_nodes := ["recipe_generator", "romantic_enhancer"],
                  requires_recipe_generation := true, requires_knowledge_lookup := true }
      else if ct = .cooking_question ∨ ct = .technique_question then
        { rd with primary_path := "knowledge_response",
                  next_nodes := ["knowledge_processor", "response_generator"],
                  requires_knowledge_lookup := true }
      else if ct = .ingredient_inquiry then
        { rd with primary_path := "ingredient_analysis",
                  next_nodes := ["ingredient_processor", "tomato_enhancer"],
                  requires_knowledge_lookup := true, requires_special_processing := true }
      else if ct = .food_pairing then
        { rd with primary_path := "pairing_analysis",
                  next_nodes := ["pairing_processor", "tomato_enhancer"],
                  requires_knowledge_lookup := true }
      else rd
    if confidence < 1/2 then
      { rd with next_nodes := rd.next_nodes ++ ["clarification_generator"] }
    else rd

/-- `ContentRouterNode._set_processing_flags` (`nodes.py` lines 394–417). -/
def set_processing_flags (ct : Option ContentType) (s : WState) : ProcessingFlags :=
  let fe := s.features_enabled
  let flags : ProcessingFlags :=
    { apply_romantic_writing := fe.romantic_writing,
      integrate_tomatoes := fe.tomato_integration,
      use_memory_system := fe.memory_system,
      generate_images := false,
      multi_platform_adapt := fe.multi_platform,
      quality_gate_required := fe.quality_gates }
  if ct = some .recipe_request then
    { flags with generate_images := fe.image_generation,
                 apply_romantic_writing := true, integrate_tomatoes := true }
  else if ct = some .general_chat then
    { flags with integrate_tomatoes :=
        7 ≤ s.personality_state.dimensions.tomato_obsession_level }
  else flags

/-- `ContentRouterNode._execute_logic` (`nodes.py` lines 316–336). -/
def content_router_logic (s : WState) : Except PyExc WState :=
  let rd := make_routing_decision s.content_type s.confidence_score
  let flags := set_processing_flags s.content_type s
  .ok (update_stage
    { s with routing_decision := some rd, processing_flags := some flags } .processing)

/-- `ResponseGeneratorNode._execute_logic` (`nodes.py` lines 428–456).  The
LLM call and the persona/romantic/tomato rewriting collaborators are outside
the modelled scope (spec §1 exclusions); the enhanced response text is an
oracle input `gen`.  The stage stores it as generated content, the single
variation, and the selected variation. -/
def response_generator_logic (gen : String) (s : WState) : Except PyExc WState :=
  .ok (update_stage
    { s with generated_content := some gen, content_variations := [gen],
             selected_variation := some gen } .quality_checked)

/-! ## Quality validation (`nodes.py` lines 578–673) -/

/-- The pydantic range validation of `QualityCheckResult` (`state.py` lines
49–57): every score field is declared `ge=0, le=1`; constructing a result
with a field outside `[0,1]` raises a `ValidationError`. -/
def quality_check_in_bounds (q : QualityCheckResult) : Bool :=
  Q.ble 0 q.score && Q.ble q.score 1 &&
  Q.ble 0 q.personality_consistency && Q.ble q.personality_consistency 1 &&
  Q.ble 0 q.tomato_integration && Q.ble q.tomato_integration 1 &&
  Q.ble 0 q.romantic_elements && Q.ble q.romantic_elements 1

/-- The exception modelling a pydantic `ValidationError`. -/
def validation_exception : PyExc := ⟨"ValidationError", "field out of declared range"⟩

/-- `QualityValidatorNode._perform_quality_checks` (`nodes.py` lines
612–673).  `engine_obsession`/`engine_history` belong to the validator's own
`PersonalityEngine` (used for the consistency sub-score); the tomato
sub-score uses the workflow state's personality dimensions `dims`.  Weights
default to `0.4 / 0.3 / 0.3` and the pass threshold to `0.85` when the keys
are absent from `processing_config`. -/
def perform_quality_checks (content : String) (dims : PersonalityDimensions)
    (cfg : ProcessingConfig) (engine_obsession : Nat) (engine_history : List Q) :
    Except PyExc QualityCheckResult :=
  let p := calculate_consistency_score content engine_obsession engine_history
  let t := evaluate_tomato_integration_success content dims.tomato_obsession_level
  let r := romantic_score content
  let pw := cfg.personality_weight.getD (4/10)
  let tw := cfg.tomato_weight.getD (3/10)
  let rw := cfg.romantic_weight.getD (3/10)
  let overall := p * pw + t * tw + r * rw
  let passed := Q.ble cfg.quality_threshold overall
  let issues :=
    (if p < 8/10 then ["Low personality consistency"] else []) ++
    (if t < 3/10 ∧ 7 ≤ dims.tomato_obsession_level then
      ["Insufficient tomato integration for obsession level"] else []) ++
    (if r < 4/10 ∧ 7 ≤ dims.romantic_intensity then
      ["Insufficient romantic language"] else [])
  let suggestions :=
    (if p < 8/10 then ["Add more Jeff-specific language and enthusiasm"] else []) ++
    (if t < 3/10 ∧ 7 ≤ dims.tomato_obsession_level then
      ["Add tomato references or suggestions"] else []) ++
    (if r < 4/10 ∧ 7 ≤ dims.romantic_intensity then
      ["Add more romantic metaphors and flowery language"] else [])
  let q : QualityCheckResult :=
    { passed := passed, score := overall, issues := issues,
      suggestions := suggestions, personality_consistency := p,
      tomato_integration := t, romantic_elements := r }
  if quality_check_in_bounds q then .ok q else .error validation_exception

/-- `QualityValidatorNode._execute_logic` (`nodes.py` lines 586–610): score
the generated content, append the result, and — when regeneration is needed
— increment the regeneration counter and set the stage back to PROCESSING;
otherwise move to OUTPUT_FORMATTED.  The validator node's own engine keeps
the default dimensions (nothing ever calls `process_input` on it), so its
obsession level is the default `9`; its consistency history is the
`engine_history` parameter. -/
def quality_validator_logic (engine_history : List Q) (s : WState) :
    Except PyExc WState :=
  let content := s.generated_content.getD ""
  match perform_quality_checks content s.personality_state.dimensions
      s.processing_config ({} : PersonalityDimensions).tomato_obsession_level
      engine_history with
  | .error e => .error e
  | .ok q =>
    let s := add_quality_check s q
    if is_regeneration_needed s then
      .ok (update_stage
        { s with regeneration_count := s.regeneration_count + 1 } .processing)
    else .ok (update_stage s .output_formatted)

/-! ## Routing decisions (`workflow.py` lines 89–130) -/

/-- `JeffWorkflowOrchestrator._route_content` (`workflow.py` lines 89–109). -/
def route_content (s : WState) : String :=
  if s.current_stage = .error then "error_handling"
  else
    let primary := (s.routing_decision.map (·.primary_path)).getD "general_response"
    if primary = "recipe_generation" then "recipe_generation"
    else if primary = "knowledge_response" then "general_response"
    else if primary = "ingredient_analysis" then "general_response"
    else if primary = "pairing_analysis" then "general_response"
    else if primary = "general_response" then "general_response"
    else "general_response"

/-- `JeffWorkflowOrchestrator._check_quality_gate` (`workflow.py` lines
111–130). -/
def check_quality_gate (s : WState) : String :=
  if s.current_stage = .error then "error"
  else if is_regeneration_needed s then
    if s.regeneration_count < s.processing_config.max_regeneration_attempts then
      "regenerate"
    else "format_output"
  else "format_output"

/-! ## Output formatting (`nodes.py` lines 676–730) -/

/-- The content precedence of `OutputFormatterNode._execute_logic`
(`nodes.py` line 685): selected variation `or` generated content `or` the
fixed apologetic fallback (Python `or` skips `None` and `""`). -/
def output_content (s : WState) : String :=
  let sv := s.selected_variation.getD ""
  if !sv.data.isEmpty then sv
  else
    let gc := s.generated_content.getD ""
    if !gc.data.isEmpty then gc
    else "Oh my darling, it seems my response got lost in the kitchen!"

/-- `OutputFormatterNode._apply_formatting` (`nodes.py` lines 699–711). -/
def apply_formatting (content : String) (s : WState) : String :=
  if s.format_preferences.include_signature.getD true then
    content ++ "\n\n*With culinary love,*\n*Chef Jeff* 🍅❤️"
  else content

/-- `OutputFormatterNode._create_output_metadata` (`nodes.py` lines 713–730;
timestamps/duration omitted). -/
def create_output_metadata (s : WState) : OutputMetadata :=
  let last := s.quality_check_results.getLast?
  { content_type := s.content_type
    personality_mood := s.personality_state.current_mood
    quality_score := (last.map (·.score)).getD 0
    regeneration_count := s.regeneration_count
    tomato_integration_score := (last.map (·.tomato_integration)).getD 0
    romantic_elements_score := (last.map (·.romantic_elements)).getD 0 }

/-- `OutputFormatterNode._execute_logic` (`nodes.py` lines 682–697).  The
metadata is computed before `finalize_workflow` but assigned to the state
after it, exactly as in the source. -/
def output_formatter_logic (s : WState) : Except PyExc WState :=
  let content := output_content s
  let formatted := apply_formatting content s
  let md := create_output_metadata s
  let s := finalize_workflow s formatted
  .ok { s with output_metadata := some md }

/-! ## Projection lemmas for the state operations

These record which fields each `StateManager` operation leaves untouched;
all are definitional. -/

@[simp] lemma record_config (s : WState) (i : NodeExecutionInfo) :
    (record_node_execution s i).processing_config = s.processing_config := rfl
@[simp] lemma record_count (s : WState) (i : NodeExecutionInfo) :
    (record_node_execution s i).regeneration_count = s.regeneration_count := rfl
@[simp] lemma record_stage (s : WState) (i : NodeExecutionInfo) :
    (record_node_execution s i).current_stage = s.current_stage := rfl
@[simp] lemma record_results (s : WState) (i : NodeExecutionInfo) :
    (record_node_execution s i).quality_check_results = s.quality_check_results := rfl
@[simp] lemma record_last_error (s : WState) (i : NodeExecutionInfo) :
    (record_node_execution s i).last_error = s.last_error := rfl
@[simp] lemma record_errors (s : WState) (i : NodeExecutionInfo) :
    (record_node_execution s i).errors = s.errors := rfl
@[simp] lemma record_final_output (s : WState) (i : NodeExecutionInfo) :
    (record_node_execution s i).final_output = s.final_output := rfl
@[simp] lemma record_complete (s : WState) (i : NodeExecutionInfo) :
    (record_node_execution s i).workflow_complete = s.workflow_complete := rfl
@[simp] lemma record_history (s : WState) (i : NodeExecutionInfo) :
    (record_node_execution s i).node_execution_history
      = s.node_execution_history ++ [i] := rfl

@[simp] lemma add_error_config (s : WState) (e : ProcessingError) :
    (add_error s e).processing_config = s.processing_config := rfl
@[simp] lemma add_error_count (s : WState) (e : ProcessingError) :
    (add_error s e).regeneration_count = s.regeneration_count := rfl
@[simp] lemma add_error_stage (s : WState) (e : ProcessingError) :
    (add_error s e).current_stage = .error := rfl
@[simp] lemma add_error_results (s : WState) (e : ProcessingError) :
    (add_error s e).quality_check_results = s.quality_check_results := rfl
@[simp] lemma add_error_last_error (s : WState) (e : ProcessingError) :
    (add_error s e).last_error = some e := rfl
@[simp] lemma add_error_errors (s : WState) (e : ProcessingError) :
    (add_error s e).errors = s.errors ++ [e] := rfl
@[simp] lemma add_error_final_output (s : WState) (e : ProcessingError) :
    (add_error s e).final_output = s.final_output := rfl
@[simp] lemma add_error_complete (s : WState) (e : ProcessingError) :
    (add_error s e).workflow_complete = s.workflow_complete := rfl
@[simp] lemma add_error_history (s : WState) (e : ProcessingError) :
    (add_error s e).node_execution_history = s.node_execution_history := rfl

@[simp] lemma update_stage_config (s : WState) (st : WorkflowStage) :
    (update_stage s st).processing_config = s.processing_config := rfl
@[simp] lemma update_stage_count (s : WState) (st : WorkflowStage) :
    (update_stage s st).regeneration_count = s.regeneration_count := rfl
@[simp] lemma update_stage_stage (s : WState) (st : WorkflowStage) :
    (update_stage s st).current_stage = st := rfl
@[simp] lemma update_stage_results (s : WState) (st : WorkflowStage) :
    (update_stage s st).quality_check_results = s.quality_check_results := rfl
@[simp] lemma update_stage_last_error (s : WState) (st : WorkflowStage) :
    (update_stage s st).last_error = s.last_error := rfl
@[simp] lemma update_stage_errors (s : WState) (st : WorkflowStage) :
    (update_stage s st).errors = s.errors := rfl
@[simp] lemma update_stage_final_output (s : WState) (st : WorkflowStage) :
    (update_stage s st).final_output = s.final_output := rfl
@[simp] lemma update_stage_complete (s : WState) (st : WorkflowStage) :
    (update_stage s st).workflow_complete = s.workflow_complete := rfl
@[simp] lemma update_stage_history (s : WState) (st : WorkflowStage) :
    (update_stage s st).node_execution_history = s.node_execution_history := rfl

@[simp] lemma add_qc_config (s : WState) (q : QualityCheckResult) :
    (add_quality_check s q).processing_config = s.processing_config := rfl
@[simp] lemma add_qc_count (s : WState) (q : QualityCheckResult) :
    (add_quality_check s q).regeneration_count = s.regeneration_count := rfl
@[simp] lemma add_qc_stage (s : WState) (q : QualityCheckResult) :
    (add_quality_check s q).current_stage = s.current_stage := rfl
@[simp] lemma add_qc_results (s : WState) (q : QualityCheckResult) :
    (add_quality_check s q).quality_check_results
      = s.quality_check_results ++ [q] := rfl
@[simp] lemma add_qc_last_error (s : WState) (q : QualityCheckResult) :
    (add_quality_check s q).last_error = s.last_error := rfl
@[simp] lemma add_qc_errors (s : WState) (q : QualityCheckResult) :
    (add_quality_check s q).errors = s.errors := rfl
@[simp] lemma add_qc_final_output (s : WState) (q : QualityCheckResult) :
    (add_quality_check s q).final_output = s.final_output := rfl
@[simp] lemma add_qc_complete (s : WState) (q : QualityCheckResult) :
    (add_quality_check s q).workflow_complete = s.workflow_complete := rfl
@[simp] lemma add_qc_history (s : WState) (q : QualityCheckResult) :
    (add_quality_check s q).node_execution_history = s.node_execution_history := rfl

@[simp] lemma finalize_final_output (s : WState) (o : String) :
    (finalize_workflow s o).final_output = some o := rfl
@[simp] lemma finalize_complete (s : WState) (o : String) :
    (finalize_workflow s o).workflow_complete = true := rfl
@[simp] lemma finalize_stage (s : WState) (o : String) :
    (finalize_workflow s o).current_stage = .completed := rfl
@[simp] lemma finalize_messages (s : WState) (o : String) :
    (finalize_workflow s o).messages = s.messages ++ [⟨"ai", o⟩] := rfl
@[simp] lemma finalize_last_error (s : WState) (o : String) :
    (finalize_workflow s o).last_error = s.last_error := rfl
@[simp] lemma finalize_errors (s : WState) (o : String) :
    (finalize_workflow s o).errors = s.errors := rfl
@[simp] lemma finalize_count (s : WState) (o : String) :
    (finalize_workflow s o).regeneration_count = s.regeneration_count := rfl
@[simp] lemma finalize_config (s : WState) (o : String) :
    (finalize_workflow s o).processing_config = s.processing_config := rfl
@[simp] lemma finalize_history (s : WState) (o : String) :
    (finalize_workflow s o).node_execution_history = s.node_execution_history := rfl

/-! ## Case lemmas for `exec_node` -/

/-- The error record created for an exception `e` at node `n`. -/
def error_record (n : String) (e : PyExc) : ProcessingError :=
  { error_type := e.type_name, error_message := e.message, node_name := n,
    recoverable := is_recoverable_error e.type_name }

lemma exec_node_of_fail {n : String} {logic : WState → Except PyExc WState}
    {f : Option String} {s : WState} (hn : f = some n) :
    exec_node n logic f s
      = record_node_execution (add_error s (error_record n injected_exception))
          ⟨n, false⟩ := by
  simp only [exec_node, base_node_execute, hn, if_pos, error_record]

lemma exec_node_of_ok {n : String} {logic : WState → Except PyExc WState}
    {f : Option String} {s s' : WState} (hn : f ≠ some n)
    (hok : logic s = .ok s') :
    exec_node n logic f s = record_node_execution s' ⟨n, true⟩ := by
  simp only [exec_node, base_node_execute, if_neg hn, hok]

lemma exec_node_of_error {n : String} {logic : WState → Except PyExc WState}
    {f : Option String} {s : WState} {e : PyExc} (hn : f ≠ some n)
    (herr : logic s = .error e) :
    exec_node n logic f s
      = record_node_execution (add_error s (error_record n e)) ⟨n, false⟩ := by
  simp only [exec_node, base_node_execute, if_neg hn, herr, error_record]

/-- Definitional unfolding of `quality_validator_logic`. -/
lemma quality_validator_logic_eq (vh : List Q) (s : WState) :
    quality_validator_logic vh s =
      match perform_quality_checks (s.generated_content.getD "")
          s.personality_state.dimensions s.processing_config
          ({} : PersonalityDimensions).tomato_obsession_level vh with
      | .error e => .error e
      | .ok q =>
        if is_regeneration_needed (add_quality_check s q) then
          .ok (update_stage
            { add_quality_check s q with
                regeneration_count := (add_quality_check s q).regeneration_count + 1 }
            .processing)
        else .ok (update_stage (add_quality_check s q) .output_formatted) := rfl

/-- Definitional unfolding of `response_generator_logic`. -/
lemma response_generator_logic_eq (g : String) (s : WState) :
    response_generator_logic g s =
      .ok (update_stage
        { s with generated_content := some g, content_variations := [g],
                 selected_variation := some g } .quality_checked) := rfl

/-- The generator stage never touches the configuration snapshot or the
regeneration counter, whether it succeeds or is failure-injected. -/
lemma exec_gen_facts (g : String) (f : Option String) (s : WState) :
    (exec_node "response_generator" (response_generator_logic g) f s).processing_config
        = s.processing_config ∧
    (exec_node "response_generator" (response_generator_logic g) f s).regeneration_count
        = s.regeneration_count := by
  by_cases hf : f = some "response_generator"
  · rw [exec_node_of_fail hf]; exact ⟨rfl, rfl⟩
  · rw [exec_node_of_ok hf (response_generator_logic_eq g s)]; exact ⟨rfl, rfl⟩

/-- When the quality gate answers "regenerate" right after the validator
stage, the validator must have incremented the regeneration counter and the
incremented counter is still below the configured maximum.  This is the
termination argument of the regeneration loop. -/
lemma validator_regen_facts (vh : List Q) (f : Option String) (s : WState)
    (h : check_quality_gate (exec_node "quality_validator" (quality_validator_logic vh) f s)
          = "regenerate") :
    (exec_node "quality_validator" (quality_validator_logic vh) f s).processing_config
        = s.processing_config ∧
    (exec_node "quality_validator" (quality_validator_logic vh) f s).regeneration_count
        = s.regeneration_count + 1 ∧
    s.regeneration_count + 1 < s.processing_config.max_regeneration_attempts := by
  by_cases hf : f = some "quality_validator"
  · rw [exec_node_of_fail hf] at h
    rw [check_quality_gate] at h
    simp at h
  · rcases hp : perform_quality_checks (s.generated_content.getD "")
        s.personality_state.dimensions s.processing_config
        ({} : PersonalityDimensions).tomato_obsession_level vh with e | q
    · have hlog : quality_validator_logic vh s = .error e := by
        rw [quality_validator_logic_eq, hp]
      rw [exec_node_of_error hf hlog] at h ⊢
      rw [check_quality_gate] at h
      simp at h
    · by_cases hr : is_regeneration_needed (add_quality_check s q) = true
      · have hlog : quality_validator_logic vh s = .ok (update_stage
            { add_quality_check s q with
                regeneration_count := (add_quality_check s q).regeneration_count + 1 }
            .processing) := by
          rw [quality_validator_logic_eq, hp]; simp [hr]
        rw [exec_node_of_ok hf hlog] at h ⊢
        refine ⟨rfl, rfl, ?_⟩
        rw [check_quality_gate] at h
        simp only [record_stage, update_stage_stage] at h
        rw [if_neg (by decide)] at h
        split at h
        · split at h
          · rename_i h2 h3
            simpa using h3
          · exact absurd h (by decide)
        · exact absurd h (by decide)
      · have hr' : is_regeneration_needed (add_quality_check s q) = false := by
          simpa using hr
        have hlog : quality_validator_logic vh s
            = .ok (update_stage (add_quality_check s q) .output_formatted) := by
          rw [quality_validator_logic_eq, hp]; simp [hr']
        rw [exec_node_of_ok hf hlog] at h
        rw [check_quality_gate] at h
        simp only [record_stage, update_stage_stage] at h
        rw [if_neg (by decide)] at h
        have hrr : is_regeneration_needed
            (record_node_execution (update_stage (add_quality_check s q) .output_formatted)
              ⟨"quality_validator", true⟩) = false := by
          rw [is_regeneration_needed] at hr' ⊢
          simpa using hr'
        rw [hrr] at h
        simp at h

/-! ## Graph assembly and the regeneration loop (`workflow.py` lines 37–130)

The compiled graph runs `input_processor → personality_filter →
content_router`, branches on `_route_content` (`error_handling` goes
straight to the formatter, every other route to the generator), then cycles
`response_generator → quality_validator → _check_quality_gate` until the
gate answers something other than "regenerate", and finishes with
`output_formatter`. -/

/-- The collaborators and injection parameters of one workflow run:
`gen_out n` is the enhanced text produced by the (excluded) LLM+persona
collaborators for the n-th generator invocation; `filter_state` the persona
state produced by the (excluded) persona engine; `validator_history` the
validator engine's shared consistency history; `fail_at` the
failure-injected node, if any. -/
structure Collab where
  gen_out : Nat → String
  filter_state : PersonalityState := {}
  validator_history : List Q := []
  fail_at : Option String := none

/-- The `response_generator ⇄ quality_validator` cycle of the graph:
generate, validate, and loop while the quality gate answers "regenerate";
any other answer ("format_output" or "error") proceeds to the output
formatter.  Termination: a "regenerate" answer forces the validator to have
incremented the regeneration counter while staying below the configured
maximum (`validator_regen_facts`). -/
def run_from_generator (col : Collab) (gens : Nat) (s : WState) : WState :=
  let s1 := exec_node "response_generator"
    (response_generator_logic (col.gen_out gens)) col.fail_at s
  let s2 := exec_node "quality_validator"
    (quality_validator_logic col.validator_history) col.fail_at s1
  if h : check_quality_gate s2 = "regenerate" then
    run_from_generator col (gens + 1) s2
  else
    exec_node "output_formatter" output_formatter_logic col.fail_at s2
termination_by
  s.processing_config.max_regeneration_attempts + 1 - s.regeneration_count
decreasing_by
  obtain ⟨hg1, hg2⟩ := exec_gen_facts (col.gen_out gens) col.fail_at s
  obtain ⟨hv1, hv2, hv3⟩ := validator_regen_facts col.validator_history col.fail_at
    (exec_node "response_generator" (response_generator_logic (col.gen_out gens))
      col.fail_at s) h
  rw [hv1, hg1, hv2, hg2]
  rw [hg1, hg2] at hv3
  omega

/-- The full graph run on one initial state (`_build_workflow` wiring). -/
def run_workflow (col : Collab) (s0 : WState) : WState :=
  let s1 := exec_node "input_processor" input_processor_logic col.fail_at s0
  let s2 := exec_node "personality_filter"
    (personality_filter_logic col.filter_state) col.fail_at s1
  let s3 := exec_node "content_router" content_router_logic col.fail_at s2
  if route_content s3 = "error_handling" then
    exec_node "output_formatter" output_formatter_logic col.fail_at s3
  else
    run_from_generator col 0 s3

/-- The result object of `process_user_input` (`workflow.py` lines 158–167;
`debug_info` omitted). -/
structure ProcessResult where
  response : Option String
  metadata : Option OutputMetadata
  session_id : String
  success : Bool
  error : Option ProcessingError
deriving DecidableEq, Repr

/-- The optional merge of caller format preferences into the initial state
(`workflow.py` lines 148–150). -/
def apply_format_prefs (s : WState) (fp : Option FormatPreferences) : WState :=
  match fp with
  | some f => { s with format_preferences := f }
  | none => s

/-- `JeffWorkflowOrchestrator.process_user_input` (`workflow.py` lines
132–178): build the initial state, run the graph, and extract the result
fields.  The source wraps the graph invocation in a catch-all `except`
returning a fixed apologetic result; the modelled graph run is a total
function, so that branch is unreachable in the model. -/
def process_user_input (col : Collab) (user_input session_id : String)
    (format_prefs : Option FormatPreferences) : ProcessResult :=
  let s0 := apply_format_prefs (create_initial_state user_input session_id) format_prefs
  let fs := run_workflow col s0
  { response := fs.final_output, metadata := fs.output_metadata,
    session_id := session_id, success := fs.workflow_complete,
    error := fs.last_error }

/-! ## The personality engine (`personality/engine.py`)

`PersonalityEngine.process_input` mutates the engine's own fields
(`_state`, `_consistency_history`); the engine held by a
`PersonalityFilterNode` is constructed once and shared across requests.
The model makes the mutation explicit by returning the updated engine.
Randomness (`random.random()` / `random.choice`) is an oracle: `uniform i`
is the i-th uniform draw and `choice i` the i-th choice index, indexed by a
running draw counter. -/

/-- `PersonalityConfig` (`personality/models.py` lines 107–128), numeric
fields only. -/
structure PersonalityConfig where
  min_consistency_score : Q := ⟨90, 100⟩
  regeneration_threshold : Q := ⟨85, 100⟩
  mood_stability : Q := ⟨7, 10⟩
  context_sensitivity : Q := ⟨6, 10⟩
  tomato_integration_weight : Q := ⟨3, 10⟩
  romantic_language_weight : Q := ⟨4, 10⟩
  max_regeneration_attempts : Nat := 3
deriving DecidableEq, Repr

/-- The engine object: its mutable state, consistency history, and config. -/
structure PersonalityEngine where
  state : PersonalityState := {}
  consistency_history : List Q := []
  config : PersonalityConfig := {}
deriving DecidableEq, Repr

/-- The randomness oracle. -/
structure Rng where
  uniform : Nat → Q
  choice : Nat → Nat

/-- `random.choice` from a list, via the choice oracle. -/
def rng_pick (r : Rng) (k : Nat) (l : List String) : String :=
  l.getD (r.choice k % l.length) ""

/-- The mood-trigger table of `_initialize_mood_triggers` (`engine.py`
lines 29–42), in dict insertion order. -/
def mood_triggers : List (MoodState × List String) :=
  [ (.ecstatic, ["tomato", "perfect recipe", "amazing flavor", "culinary breakthrough"]),
    (.enthusiastic, ["cooking", "recipe", "ingredient", "kitchen", "delicious"]),
    (.romantic, ["love", "passion", "heart", "soul", "beautiful", "elegant"]),
    (.contemplative, ["technique", "tradition", "history", "philosophy", "meaning"]),
    (.playful, ["experiment", "fun", "surprise", "creative", "unusual", "whimsical"]),
    (.passionate, ["fire", "intense", "bold", "powerful", "dramatic"]),
    (.serene, ["gentle", "peaceful", "harmony", "balance", "calm"]),
    (.mischievous, ["secret", "trick", "surprise", "unexpected", "cheeky"]),
    (.nostalgic, ["memory", "grandmother", "childhood", "traditional", "classic"]),
    (.inspired, ["innovation", "creative", "artistic", "vision", "dream"]) ]

/-- `PersonalityEngine._update_mood_from_input` (`engine.py` lines 113–133)
together with `_record_mood_transition` (lines 135–148): count trigger
occurrences per mood, and when a uniform draw exceeds the mood-stability
parameter adopt the first maximal mood, recording the transition (history
capped at 50). -/
def update_mood_from_input (r : Rng) (k : Nat) (eng : PersonalityEngine)
    (content : String) : PersonalityEngine × Nat :=
  let cl := asciiLower content.data
  let mood_scores := (mood_triggers.map
      (fun mt => (mt.1, (mt.2.filter (fun t => lcContains t.data cl)).length))).filter
    (fun ms => 0 < ms.2)
  match mood_scores with
  | [] => (eng, k)
  | m :: rest =>
    if Q.ble (r.uniform k) eng.config.mood_stability then (eng, k + 1)
    else
      let new_mood := (rest.foldl (fun b x => if b.2 < x.2 then x else b) m).1
      if new_mood = eng.state.current_mood then (eng, k + 1)
      else
        let reason := "Triggered by: " ++
          String.intercalate ", " ((m :: rest).map (fun ms => ms.1.value))
        let hist := eng.state.mood_history ++
          [⟨eng.state.current_mood, new_mood, reason⟩]
        let hist := if 50 < hist.length then hist.drop 1 else hist
        ({ eng with state :=
            { eng.state with current_mood := new_mood, mood_history := hist } }, k + 1)

/-- The mood-specific template transformations (`engine.py` lines 391–419). -/
def apply_mood_transformation (mood : MoodState) (content : String) : String :=
  match mood with
  | .ecstatic => "OH MY STARS! " ++ content ++ " This is absolutely INCREDIBLE!"
  | .enthusiastic => "Oh, how exciting! " ++ content ++ " I'm practically bouncing with joy!"
  | .romantic => "My darling friends, " ++ content ++ " *sighs dreamily*"
  | .contemplative =>
    "You know, when I reflect on this... " ++ content ++ " There's such wisdom in these simple acts."
  | .playful =>
    "*winks mischievously* " ++ content ++ " Isn't cooking just the most delightful adventure?"
  | .passionate =>
    "With fire in my heart, I must tell you: " ++ content ++ " This is PURE CULINARY PASSION!"
  | .serene => "In the gentle quiet of the kitchen... " ++ content ++ " *peaceful smile*"
  | .mischievous =>
    "*leans in with a knowing smile* " ++ content ++ " But that's not all... there's a little secret!"
  | .nostalgic =>
    "This brings back such precious memories... " ++ content ++ " Just like grandmother used to make."
  | .inspired =>
    "I'm absolutely inspired by this vision: " ++ content ++ " Can you see the artistic beauty?"

/-- Template pools of `engine.py` lines 199–268. -/
def romantic_phrases : List String :=
  ["with tender loving care", "like a passionate embrace",
   "whispered sweet nothings to", "danced together in perfect harmony",
   "fell deeply in love with", "created a beautiful romance"]

def tomato_suggestion_pool : List String :=
  ["Perhaps a whisper of tomato would elevate this to perfection?",
   "My heart suggests just a touch of tomato magic here.",
   "Imagine this with the ruby embrace of beautiful tomatoes!",
   "A hint of tomato would make this absolutely divine."]

def enthusiasm_amplifiers : List String :=
  ["absolutely magnificent", "utterly spectacular", "breathtakingly beautiful",
   "incredibly exciting", "wonderfully magical"]

def creative_elements : List String :=
  ["What if we dared to...", "Imagine the possibilities when...",
   "Let's break tradition and...", "Picture this creative twist..."]

/-- `PersonalityEngine._add_romantic_elements` (`engine.py` lines 199–217). -/
def add_romantic_elements (r : Rng) (k : Nat) (st : PersonalityState)
    (content : String) : String × Nat :=
  let factor := (st.dimensions.romantic_intensity : Q) / 10
  if r.uniform k < factor then
    (content ++ " *" ++ rng_pick r (k + 1) romantic_phrases ++ "*", k + 2)
  else (content, k + 1)

/-- `PersonalityEngine._integrate_tomato_references` (`engine.py` lines
219–234). -/
def integrate_tomato_references (r : Rng) (k : Nat) (st : PersonalityState)
    (content : String) : String × Nat :=
  if !lcContains "tomato".data (asciiLower content.data) then
    let factor := (st.dimensions.tomato_obsession_level : Q) / 10
    if r.uniform k < factor then
      (content ++ "\n\n*" ++ rng_pick r (k + 1) tomato_suggestion_pool ++ "*", k + 2)
    else (content, k + 1)
  else (content, k)

/-- `PersonalityEngine._amplify_enthusiasm` (`engine.py` lines 236–252). -/
def amplify_enthusiasm (r : Rng) (k : Nat) (st : PersonalityState)
    (content : String) : String × Nat :=
  let factor := (st.dimensions.energy_level : Q) / 10
  if r.uniform k < factor then
    let amp := rng_pick r (k + 1) enthusiasm_amplifiers
    (strReplace (strReplace content "good" amp) "nice" amp, k + 2)
  else (content, k + 1)

/-- `PersonalityEngine._enhance_creativity` (`engine.py` lines 254–268). -/
def enhance_creativity (r : Rng) (k : Nat) (st : PersonalityState)
    (content : String) : String × Nat :=
  let factor := (st.dimensions.creativity_multiplier - 1) / 2
  if r.uniform k < factor then
    (rng_pick r (k + 1) creative_elements ++ " " ++ content, k + 2)
  else (content, k + 1)

/-- `PersonalityEngine._adapt_for_twitter` (`engine.py` lines 422–426). -/
def adapt_for_twitter (content : String) : String :=
  if 240 < content.data.length then
    ⟨content.data.take 200⟩ ++ "... *chef's kiss* 🍅"
  else content

/-- `PersonalityEngine._adapt_for_linkedin` (`engine.py` lines 428–431). -/
def adapt_for_linkedin (content : String) : String :=
  "As a culinary professional, I find that " ++
    strReplace (strReplace content "*" "") "OH MY STARS!" "I'm excited to share that"

/-- `PersonalityEngine._increase_formality` (`engine.py` lines 433–446), in
dict insertion order. -/
def increase_formality (content : String) : String :=
  let content := strReplace content "Oh," "I would like to note that"
  let content := strReplace content "!" "."
  let content := strReplace content "*" ""
  let content := strReplace content "absolutely" "certainly"
  strReplace content "incredible" "noteworthy"

/-- `PersonalityEngine._apply_context_adaptations` (`engine.py` lines
270–287).  The engine's context is a pydantic instance, hence always
truthy, so the adaptations always run. -/
def apply_context_adaptations (st : PersonalityState) (content : String) : String :=
  let content :=
    if st.context.platform = some "twitter" then adapt_for_twitter content
    else if st.context.platform = some "linkedin" then adapt_for_linkedin content
    else content
  if (7/10 : Q) < st.context.formality_level then increase_formality content
  else content

/-- `PersonalityEngine._apply_personality_transformation` (`engine.py`
lines 150–177): mood template, then the dimension-gated stochastic
rewrites in fixed order, then context adaptations. -/
def apply_personality_transformation (r : Rng) (k : Nat) (st : PersonalityState)
    (content : String) : String × Nat :=
  let t := apply_mood_transformation st.current_mood content
  let p := if 7 ≤ st.dimensions.romantic_intensity then
    add_romantic_elements r k st t else (t, k)
  let p := if 8 ≤ st.dimensions.tomato_obsession_level then
    integrate_tomato_references r p.2 st p.1 else p
  let p := if 8 ≤ st.dimensions.energy_level then
    amplify_enthusiasm r p.2 st p.1 else p
  let p := if (1 : Q) < st.dimensions.creativity_multiplier then
    enhance_creativity r p.2 st p.1 else p
  (apply_context_adaptations st p.1, p.2)

/-- The regeneration loop inside `process_input` (`engine.py` lines 88–93):
up to `max_regeneration_attempts` fresh transformations of the original
content, stopping early when the consistency score reaches the threshold. -/
def personality_regen_loop (r : Rng) (st : PersonalityState) (hist : List Q)
    (orig : String) (threshold : Q) :
    Nat → Nat → String × Q → String × Q × Nat
  | 0, k, p => (p.1, p.2, k)
  | n + 1, k, _ =>
    let t := apply_personality_transformation r k st orig
    let score := calculate_consistency_score t.1
      st.dimensions.tomato_obsession_level hist
    if Q.ble threshold score then (t.1, score, t.2)
    else personality_regen_loop r st hist orig threshold n t.2 (t.1, score)

/-- `PersonalityResponse` (`personality/models.py` lines 96–104;
`mood_influences` is derived from wall-clock timestamps and is omitted). -/
structure PersonalityResponseM where
  content : String
  personality_state : PersonalityState
  consistency_score : Q
  tomato_integration_score : Q
  romantic_elements : List String
deriving DecidableEq, Repr

/-- `PersonalityEngine.process_input` (`engine.py` lines 73–111).  Returns
the response together with the engine as mutated by the call: the context
assignment, any mood transition, and the consistency-history append (capped
at 100) all act on the engine object itself.  A `None` content (the
workflow passes `processed_input` through unchecked) crashes on
`content.lower()`. -/
def engine_process_input (r : Rng) (k : Nat) (eng : PersonalityEngine)
    (content : Option String) (ctx : Option PersonalityContext) :
    Except PyExc (PersonalityResponseM × PersonalityEngine × Nat) :=
  let eng := match ctx with
    | some c => { eng with state := { eng.state with context := c } }
    | none => eng
  match content with
  | none => .error ⟨"AttributeError", "NoneType object has no attribute lower"⟩
  | some content =>
    let ek := update_mood_from_input r k eng content
    let eng := ek.1
    let tk := apply_personality_transformation r ek.2 eng.state content
    let score0 := calculate_consistency_score tk.1
      eng.state.dimensions.tomato_obsession_level eng.consistency_history
    let tsk :=
      if score0 < eng.config.regeneration_threshold then
        personality_regen_loop r eng.state eng.consistency_history content
          eng.config.regeneration_threshold eng.config.max_regeneration_attempts
          tk.2 (tk.1, score0)
      else (tk.1, score0, tk.2)
    let t := tsk.1
    let score := tsk.2.1
    let tomato := calculate_tomato_integration_score t
      eng.state.dimensions.tomato_obsession_level
    let roms := extract_romantic_elements t
    let hist := eng.consistency_history ++ [score]
    let hist := if 100 < hist.length then hist.drop 1 else hist
    let eng := { eng with consistency_history := hist }
    .ok ({ content := t, personality_state := eng.state,
           consistency_score := score, tomato_integration_score := tomato,
           romantic_elements := roms }, eng, tsk.2.2)

/-! ## Claim theorems -/

/-- C1: for every workflow state reaching the quality-gate decision with at
least one quality result: if the current stage is the ERROR sentinel the
gate returns the "error" edge; otherwise, if the latest quality result
failed and the regeneration counter is below the configured maximum, it
returns "regenerate"; otherwise it returns "format_output", even when
quality never passed.  Moreover the quality-validation step that precedes
the gate either incremented the counter and set the stage back to
PROCESSING (the regenerate case) or left the counter unchanged and moved to
OUTPUT_FORMATTED. -/
theorem c1_quality_gate (s : WState) (latest : QualityCheckResult)
    (h : s.quality_check_results.getLast? = some latest) :
    (check_quality_gate s =
      if s.current_stage = .error then "error"
      else if latest.passed = false ∧
          s.regeneration_count < s.processing_config.max_regeneration_attempts then
        "regenerate"
      else "format_output") ∧
    (∀ vh s', quality_validator_logic vh s = .ok s' →
      (s'.current_stage = .processing ∧
        s'.regeneration_count = s.regeneration_count + 1) ∨
      (s'.current_stage = .output_formatted ∧
        s'.regeneration_count = s.regeneration_count)) := by
  constructor
  · rw [check_quality_gate, is_regeneration_needed, h]
    by_cases he : s.current_stage = .error
    · simp [he]
    · simp only [if_neg he]
      by_cases hp : latest.passed
      · simp [hp]
      · by_cases hc : s.regeneration_count < s.processing_config.max_regeneration_attempts
        · simp [hp, hc]
        · simp [hp, hc]
  · intro vh s' hok
    rw [quality_validator_logic_eq] at hok
    rcases hp : perform_quality_checks (s.generated_content.getD "")
        s.personality_state.dimensions s.processing_config
        ({} : PersonalityDimensions).tomato_obsession_level vh with e | q
    · rw [hp] at hok; exact absurd hok (by simp)
    · rw [hp] at hok
      dsimp only at hok
      by_cases hr : is_regeneration_needed (add_quality_check s q) = true
      · rw [if_pos hr] at hok
        simp only [Except.ok.injEq] at hok
        subst hok
        left
        exact ⟨rfl, rfl⟩
      · rw [if_neg hr] at hok
        simp only [Except.ok.injEq] at hok
        subst hok
        right
        exact ⟨rfl, rfl⟩

/-- A failed quality result, for instantiating gate theorems. -/
def c1_example_q : QualityCheckResult :=
  { passed := false, score := 0, issues := [], suggestions := [],
    personality_consistency := 0, tomato_integration := 0, romantic_elements := 0 }

/-- A state sitting at the quality gate with one failed result. -/
def c1_example_state : WState :=
  { create_initial_state "hi" "s1" with
      quality_check_results := [c1_example_q],
      regeneration_count := 1,
      current_stage := .quality_checked }

/-- Witness for `c1_quality_gate` at a concrete state. -/
theorem c1_quality_gate_witness :
    (check_quality_gate c1_example_state =
      if c1_example_state.current_stage = .error then "error"
      else if c1_example_q.passed = false ∧
          c1_example_state.regeneration_count
            < c1_example_state.processing_config.max_regeneration_attempts then
        "regenerate"
      else "format_output") ∧
    (∀ vh s', quality_validator_logic vh c1_example_state = .ok s' →
      (s'.current_stage = .processing ∧
        s'.regeneration_count = c1_example_state.regeneration_count + 1) ∨
      (s'.current_stage = .output_formatted ∧
        s'.regeneration_count = c1_example_state.regeneration_count)) :=
  c1_quality_gate c1_example_state c1_example_q (by decide)

/-- C3: for every stage and every exception raised by its stage-specific
logic, `execute` returns the state (without re-raising — the wrapper is a
total function) with the ERROR stage set, a structured error record
appended (exception type name, message, stage name, recoverable flag),
the record also stored as last error, a failed execution record appended,
and the recoverable flag true exactly for the four listed exception type
names. -/
theorem c3_error_contract (n : String) (logic : WState → Except PyExc WState)
    (s : WState) (e : PyExc) (h : logic s = .error e) :
    (base_node_execute n logic s).current_stage = .error ∧
    (base_node_execute n logic s).errors = s.errors ++
      [{ error_type := e.type_name, error_message := e.message, node_name := n,
         recoverable := is_recoverable_error e.type_name }] ∧
    (base_node_execute n logic s).last_error = some
      { error_type := e.type_name, error_message := e.message, node_name := n,
        recoverable := is_recoverable_error e.type_name } ∧
    (base_node_execute n logic s).node_execution_history
      = s.node_execution_history ++ [⟨n, false⟩] ∧
    (is_recoverable_error e.type_name = true ↔
      e.type_name ∈ ["RateLimitError", "TimeoutError", "ConnectionError", "APIError"]) := by
  have hb : base_node_execute n logic s
      = record_node_execution (add_error s (error_record n e)) ⟨n, false⟩ := by
    rw [base_node_execute, h]
    rfl
  rw [hb]
  refine ⟨rfl, rfl, rfl, rfl, ?_⟩
  simp [is_recoverable_error, List.contains, List.elem_iff]

/-- Witness for `c3_error_contract`: a stage whose logic always raises
`ValueError` (a non-recoverable kind). -/
theorem c3_error_contract_witness :
    (base_node_execute "response_generator" (fun _ => .error ⟨"ValueError", "boom"⟩)
        (create_initial_state "hi" "s1")).current_stage = .error ∧
    (base_node_execute "response_generator" (fun _ => .error ⟨"ValueError", "boom"⟩)
        (create_initial_state "hi" "s1")).errors = (create_initial_state "hi" "s1").errors ++
      [{ error_type := "ValueError", error_message := "boom",
         node_name := "response_generator",
         recoverable := is_recoverable_error "ValueError" }] ∧
    (base_node_execute "response_generator" (fun _ => .error ⟨"ValueError", "boom"⟩)
        (create_initial_state "hi" "s1")).last_error = some
      { error_type := "ValueError", error_message := "boom",
        node_name := "response_generator",
        recoverable := is_recoverable_error "ValueError" } ∧
    (base_node_execute "response_generator" (fun _ => .error ⟨"ValueError", "boom"⟩)
        (create_initial_state "hi" "s1")).node_execution_history
      = (create_initial_state "hi" "s1").node_execution_history ++
        [⟨"response_generator", false⟩] ∧
    (is_recoverable_error "ValueError" = true ↔
      "ValueError" ∈ ["RateLimitError", "TimeoutError", "ConnectionError", "APIError"]) :=
  c3_error_contract "response_generator" (fun _ => .error ⟨"ValueError", "boom"⟩)
    (create_initial_state "hi" "s1") ⟨"ValueError", "boom"⟩ rfl

/-- A content string containing every term of the source's 13-entry romantic
vocabulary. -/
def c5_failing_content : String :=
  "love heart soul passion embrace dance whisper beautiful elegant tender gentle caress romance"

/-- C5 (failing part): the romantic sub-score is `len(romantic_elements)/10`
over a 13-term vocabulary, so content containing all 13 terms scores 1.3 —
outside `[0,1]` — and constructing the `QualityCheckResult` then violates
its own declared `le=1.0` field bound (a `ValidationError`), contradicting
both the claim and the source's `# Normalize to 0-1` comment. -/
theorem c5_romantic_subscore_out_of_range :
    (romantic_score c5_failing_content).toRat = 13/10 ∧
    ¬ ((romantic_score c5_failing_content).toRat ≤ 1) ∧
    perform_quality_checks c5_failing_content {} {} 9 [] = .error validation_exception := by
  have h : romantic_score c5_failing_content = ⟨13, 10⟩ := by decide
  have h2 : perform_quality_checks c5_failing_content {} {} 9 [] = .error validation_exception :=
    rfl
  refine ⟨?_, ?_, h2⟩ <;> rw [h] <;> norm_num [Q.toRat]

/-- The clear-recipe-request scenario input. -/
def c9_input : String := "recipe for pasta with tomatoes"

/-- C9 (counterexample): classification of the scenario input does return
the recipe-request category, but with confidence exactly 1/6 (one of its
six patterns matches) — not greater than 0.5 as claimed. -/
theorem c9_confidence_not_above_half :
    (classify_intent c9_input).1 = .recipe_request ∧
    (classify_intent c9_input).2.toRat = 1/6 ∧
    ¬ ((1:ℚ)/2 < (classify_intent c9_input).2.toRat) := by
  have h : classify_intent c9_input = (.recipe_request, ⟨1, 6⟩) := by decide
  refine ⟨by rw [h], ?_, ?_⟩ <;> rw [h] <;> norm_num [Q.toRat]

/-- C9 (amended): classification returns the recipe-request category with
confidence 1/6 (positive, but not above 0.5), and entity extraction finds
"tomato", "tomatoes" and "pasta" among the ingredients. -/
theorem c9_recipe_request_classification :
    (classify_intent c9_input).1 = .recipe_request ∧
    (classify_intent c9_input).2.toRat = 1/6 ∧
    0 < (classify_intent c9_input).2.toRat ∧
    "tomato" ∈ (extract_entities c9_input).ingredients ∧
    "tomatoes" ∈ (extract_entities c9_input).ingredients ∧
    "pasta" ∈ (extract_entities c9_input).ingredients := by
  have h : classify_intent c9_input = (.recipe_request, ⟨1, 6⟩) := by decide
  refine ⟨by rw [h], by rw [h]; norm_num [Q.toRat], by rw [h]; norm_num [Q.toRat],
    by decide, by decide, by decide⟩

/-- The image-request scenario input. -/
def c10_input : String := "create an image of romantic pasta with tomatoes"

/-- C10: the `ContentType` enum of `state.py` has no image-request member —
no member's value is "image_request" — even though
`input_processor_node.py`, `image_generator_node.py`,
`output_formatter_node.py` and the repository's tests all reference
`ContentType.IMAGE_REQUEST` (an `AttributeError` at runtime).  The
image-description and style extraction of `input_processor_node.py` itself
behaves as the claim describes: the leading "create an image of" phrase is
stripped and the keyword "romantic" triggers the `romantic_dinner` style. -/
theorem c10_enum_missing_image_request :
    (∀ c : ContentType, c.value ≠ "image_request") ∧
    extract_image_description c10_input = some "romantic pasta with tomatoes" ∧
    extract_image_style c10_input = some "romantic_dinner" := by
  refine ⟨?_, by decide, by decide⟩
  intro c
  cases c <;> decide

/-- Definitional unfolding of `output_formatter_logic`. -/
lemma output_formatter_logic_eq (s : WState) :
    output_formatter_logic s = .ok
      { finalize_workflow s (apply_formatting (output_content s) s) with
          output_metadata := some (create_output_metadata s) } := rfl

/-- The content precedence chain never yields an empty string: each branch
is a nonempty string or falls through to the fixed apologetic fallback. -/
lemma output_content_ne_nil (s : WState) : (output_content s).data ≠ [] := by
  unfold output_content
  dsimp only
  by_cases h1 : (s.selected_variation.getD "").data.isEmpty
  · by_cases h2 : (s.generated_content.getD "").data.isEmpty
    · simp only [h1, h2, Bool.not_true, Bool.false_eq_true, if_false]
      decide
    · simp only [h1, h2, Bool.not_true, Bool.not_false, Bool.false_eq_true, if_false, if_true]
      simpa using h2
  · simp only [h1, Bool.not_false, if_true]
    simpa using h1

/-- Formatting (with or without the signature suffix) preserves
nonemptiness. -/
lemma apply_formatting_ne_nil (s : WState) (content : String)
    (h : content.data ≠ []) : (apply_formatting content s).data ≠ [] := by
  rw [apply_formatting]
  split
  · simp [h]
  · exact h

/-- A state with generated content, about to be formatted. -/
def c7_state : WState :=
  { create_initial_state "hi" "s1" with
      generated_content := some "yum", selected_variation := some "yum",
      current_stage := .output_formatted }

/-- The record at the program point where `finalize_workflow` has just
executed its first statement, `state["final_output"] = final_output` —
i.e. the moment the final output is written. -/
def c7_at_assignment : WState :=
  { c7_state with
      final_output := some (apply_formatting (output_content c7_state) c7_state) }

/-- C7 (counterexample to "setting final_output is the last mutation"): on
a concrete run of the output-formatter stage the returned state has the
complete flag set and the same final output as at the assignment moment,
yet the output metadata (empty at the assignment moment) has been written,
an AI message appended, and a node-execution record appended — all
mutations sequenced after the final-output write in the source
(`finalize_workflow` body order and `_execute_logic` line 695 /
`BaseNode.execute` line 57). -/
theorem c7_not_last_mutation :
    (exec_node "output_formatter" output_formatter_logic none c7_state).workflow_complete
      = true ∧
    (exec_node "output_formatter" output_formatter_logic none c7_state).final_output
      = c7_at_assignment.final_output ∧
    c7_at_assignment.output_metadata = none ∧
    (exec_node "output_formatter" output_formatter_logic none c7_state).output_metadata
      ≠ none ∧
    (exec_node "output_formatter" output_formatter_logic none c7_state).messages.length
      = c7_at_assignment.messages.length + 1 ∧
    (exec_node "output_formatter" output_formatter_logic none c7_state).node_execution_history.length
      = c7_at_assignment.node_execution_history.length + 1 := by
  refine ⟨by decide, by decide, by decide, by decide, by decide, by decide⟩

/-- C7 (amended): whenever the output-formatter stage runs (and is not
itself the failure-injected stage), the returned state has
`workflow_complete = true` and a non-empty `final_output` (the apologetic
fallback when no generated content exists); `final_output` is however not
the last mutation applied (see `c7_not_last_mutation`). -/
theorem c7_completion (s : WState) (f : Option String)
    (hf : f ≠ some "output_formatter") :
    (exec_node "output_formatter" output_formatter_logic f s).workflow_complete = true ∧
    ∃ t, (exec_node "output_formatter" output_formatter_logic f s).final_output = some t ∧
      t ≠ "" := by
  rw [exec_node_of_ok hf (output_formatter_logic_eq s)]
  refine ⟨rfl, apply_formatting (output_content s) s, rfl, ?_⟩
  intro hempty
  have hdata : (apply_formatting (output_content s) s).data = [] := by
    rw [hempty]
  exact apply_formatting_ne_nil s _ (output_content_ne_nil s) hdata

/-- Witness for `c7_completion` at a concrete state. -/
theorem c7_completion_witness :
    (exec_node "output_formatter" output_formatter_logic none c7_state).workflow_complete
      = true ∧
    ∃ t, (exec_node "output_formatter" output_formatter_logic none c7_state).final_output
      = some t ∧ t ≠ "" :=
  c7_completion c7_state none (by decide)

/-! ## Loop-level lemmas for the regeneration cycle -/

def gen_invocations (s : WState) : Nat :=
  (s.node_execution_history.filter (fun r => r.node_name = "response_generator")).length

lemma is_regen_add_qc (s : WState) (q : QualityCheckResult) :
    is_regeneration_needed (add_quality_check s q)
      = (!q.passed && decide (s.regeneration_count
          < s.processing_config.max_regeneration_attempts)) := by
  rw [is_regeneration_needed]
  simp [List.getLast?_concat]

lemma gen_invocations_exec (n : String) (logic : WState → Except PyExc WState)
    (f : Option String) (s : WState)
    (hl : ∀ st st', logic st = .ok st' →
      st'.node_execution_history = st.node_execution_history) :
    gen_invocations (exec_node n logic f s)
      = gen_invocations s + (if n = "response_generator" then 1 else 0) := by
  have hcase : ∀ (b : Bool) (s' : WState),
      gen_invocations (record_node_execution s' ⟨n, b⟩)
        = gen_invocations s' + (if n = "response_generator" then 1 else 0) := by
    intro b s'
    rw [gen_invocations, gen_invocations, record_history, List.filter_append,
      List.length_append]
    by_cases hn : n = "response_generator" <;> simp [hn, List.filter]
  rw [exec_node, base_node_execute]
  rcases hres : (if f = some n then Except.error injected_exception
      else logic s : Except PyExc WState) with e | s'
  · dsimp only
    have h2 := hcase false (add_error s
      { error_type := e.type_name, error_message := e.message, node_name := n,
        recoverable := is_recoverable_error e.type_name })
    rw [h2]
    rfl
  · dsimp only
    have hlog : logic s = .ok s' := by
      by_cases hf : f = some n
      · rw [if_pos hf] at hres
        exact absurd hres (by simp)
      · rwa [if_neg hf] at hres
    have hsame : gen_invocations s' = gen_invocations s := by
      rw [gen_invocations, gen_invocations, hl s s' hlog]
    rw [hcase true s', hsame]

lemma exec_node_inner_ok {n : String} {logic : WState → Except PyExc WState}
    {f : Option String} {s s' : WState}
    (hres : (if f = some n then Except.error injected_exception else logic s)
      = Except.ok s') : logic s = .ok s' := by
  by_cases hf : f = some n
  · rw [if_pos hf] at hres
    exact absurd hres (by simp)
  · rwa [if_neg hf] at hres

lemma exec_node_config (n : String) (logic : WState → Except PyExc WState)
    (f : Option String) (s : WState)
    (hc : ∀ st st', logic st = .ok st' → st'.processing_config = st.processing_config) :
    (exec_node n logic f s).processing_config = s.processing_config := by
  rw [exec_node, base_node_execute]
  rcases hres : (if f = some n then Except.error injected_exception
      else logic s : Except PyExc WState) with e | s'
  · rfl
  · dsimp only
    rw [record_config, hc s s' (exec_node_inner_ok hres)]

lemma exec_node_count (n : String) (logic : WState → Except PyExc WState)
    (f : Option String) (s : WState)
    (hc : ∀ st st', logic st = .ok st' → st'.regeneration_count = st.regeneration_count) :
    (exec_node n logic f s).regeneration_count = s.regeneration_count := by
  rw [exec_node, base_node_execute]
  rcases hres : (if f = some n then Except.error injected_exception
      else logic s : Except PyExc WState) with e | s'
  · rfl
  · dsimp only
    rw [record_count, hc s s' (exec_node_inner_ok hres)]

lemma exec_node_last_error (n : String) (logic : WState → Except PyExc WState)
    (f : Option String) (s : WState)
    (hc : ∀ st st', logic st = .ok st' → st'.last_error = st.last_error) :
    (exec_node n logic f s).last_error = s.last_error ∨
    (exec_node n logic f s).last_error.isSome = true := by
  rw [exec_node, base_node_execute]
  rcases hres : (if f = some n then Except.error injected_exception
      else logic s : Except PyExc WState) with e | s'
  · right; rfl
  · dsimp only
    left
    rw [record_last_error, hc s s' (exec_node_inner_ok hres)]

lemma exec_node_fail_last_error (n : String) (logic : WState → Except PyExc WState)
    (s : WState) :
    (exec_node n logic (some n) s).last_error.isSome = true := by
  rw [exec_node_of_fail rfl]
  rfl

lemma exec_val_step (vh : List Q) (f : Option String) (s : WState) :
    (exec_node "quality_validator" (quality_validator_logic vh) f s).processing_config
      = s.processing_config ∧
    ((exec_node "quality_validator" (quality_validator_logic vh) f s).regeneration_count
        = s.regeneration_count ∨
      ((exec_node "quality_validator" (quality_validator_logic vh) f s).regeneration_count
          = s.regeneration_count + 1 ∧
        s.regeneration_count < s.processing_config.max_regeneration_attempts)) ∧
    ((exec_node "quality_validator" (quality_validator_logic vh) f s).last_error
        = s.last_error ∨
      (exec_node "quality_validator" (quality_validator_logic vh) f s).last_error.isSome
        = true) := by
  by_cases hf : f = some "quality_validator"
  · rw [exec_node_of_fail hf]
    exact ⟨rfl, .inl rfl, .inr rfl⟩
  · rcases hp : perform_quality_checks (s.generated_content.getD "")
        s.personality_state.dimensions s.processing_config
        ({} : PersonalityDimensions).tomato_obsession_level vh with e | q
    · have hlog : quality_validator_logic vh s = .error e := by
        rw [quality_validator_logic_eq, hp]
      rw [exec_node_of_error hf hlog]
      exact ⟨rfl, .inl rfl, .inr rfl⟩
    · by_cases hr : is_regeneration_needed (add_quality_check s q) = true
      · have hlog : quality_validator_logic vh s = .ok (update_stage
            { add_quality_check s q with
                regeneration_count := (add_quality_check s q).regeneration_count + 1 }
            .processing) := by
          rw [quality_validator_logic_eq, hp]; simp [hr]
        rw [exec_node_of_ok hf hlog]
        refine ⟨rfl, .inr ⟨rfl, ?_⟩, .inl rfl⟩
        rw [is_regen_add_qc] at hr
        simp only [Bool.and_eq_true, decide_eq_true_eq] at hr
        exact hr.2
      · have hr' : is_regeneration_needed (add_quality_check s q) = false := by
          simpa using hr
        have hlog : quality_validator_logic vh s
            = .ok (update_stage (add_quality_check s q) .output_formatted) := by
          rw [quality_validator_logic_eq, hp]; simp [hr']
        rw [exec_node_of_ok hf hlog]
        exact ⟨rfl, .inl rfl, .inl rfl⟩

lemma gen_logic_preserves (g : String) : ∀ s s',
    response_generator_logic g s = .ok s' →
    s'.node_execution_history = s.node_execution_history ∧
    s'.last_error = s.last_error ∧
    s'.processing_config = s.processing_config ∧
    s'.regeneration_count = s.regeneration_count := by
  intro s s' h
  rw [response_generator_logic_eq] at h
  simp only [Except.ok.injEq] at h
  subst h
  exact ⟨rfl, rfl, rfl, rfl⟩

lemma val_logic_preserves (vh : List Q) : ∀ s s',
    quality_validator_logic vh s = .ok s' →
    s'.node_execution_history = s.node_execution_history ∧
    s'.last_error = s.last_error := by
  intro s s' h
  rw [quality_validator_logic_eq] at h
  rcases hp : perform_quality_checks (s.generated_content.getD "")
      s.personality_state.dimensions s.processing_config
      ({} : PersonalityDimensions).tomato_obsession_level vh with e | q
  · rw [hp] at h; exact absurd h (by simp)
  · rw [hp] at h
    dsimp only at h
    split at h <;> (simp only [Except.ok.injEq] at h; subst h; exact ⟨rfl, rfl⟩)

lemma fmt_logic_preserves : ∀ s s',
    output_formatter_logic s = .ok s' →
    s'.node_execution_history = s.node_execution_history ∧
    s'.last_error = s.last_error ∧
    s'.processing_config = s.processing_config ∧
    s'.regeneration_count = s.regeneration_count := by
  intro s s' h
  rw [output_formatter_logic_eq] at h
  simp only [Except.ok.injEq] at h
  subst h
  exact ⟨rfl, rfl, rfl, rfl⟩

/-- One exec step keeps `last_error.isSome` monotone, given the logic
preserves `last_error` on success. -/
lemma exec_node_isSome_mono (n : String) (logic : WState → Except PyExc WState)
    (f : Option String) (s : WState)
    (hc : ∀ st st', logic st = .ok st' → st'.last_error = st.last_error)
    (hs : s.last_error.isSome = true) :
    (exec_node n logic f s).last_error.isSome = true := by
  rcases exec_node_last_error n logic f s hc with he | he
  · rw [he]; exact hs
  · exact he


/-- Combined facts about one generator+validator step of the loop. -/
lemma loop_step_facts (col : Collab) (gens : Nat) (s : WState) :
    (exec_node "quality_validator" (quality_validator_logic col.validator_history)
        col.fail_at (exec_node "response_generator"
          (response_generator_logic (col.gen_out gens)) col.fail_at s)).processing_config
      = s.processing_config ∧
    ((exec_node "quality_validator" (quality_validator_logic col.validator_history)
        col.fail_at (exec_node "response_generator"
          (response_generator_logic (col.gen_out gens)) col.fail_at s)).regeneration_count
        = s.regeneration_count ∨
      ((exec_node "quality_validator" (quality_validator_logic col.validator_history)
          col.fail_at (exec_node "response_generator"
            (response_generator_logic (col.gen_out gens)) col.fail_at s)).regeneration_count
          = s.regeneration_count + 1 ∧
        s.regeneration_count < s.processing_config.max_regeneration_attempts)) ∧
    (s.last_error.isSome = true →
      (exec_node "quality_validator" (quality_validator_logic col.validator_history)
        col.fail_at (exec_node "response_generator"
          (response_generator_logic (col.gen_out gens)) col.fail_at s)).last_error.isSome
        = true) ∧
    (col.fail_at = some "response_generator" ∨ col.fail_at = some "quality_validator" →
      (exec_node "quality_validator" (quality_validator_logic col.validator_history)
        col.fail_at (exec_node "response_generator"
          (response_generator_logic (col.gen_out gens)) col.fail_at s)).last_error.isSome
        = true) ∧
    gen_invocations (exec_node "quality_validator"
        (quality_validator_logic col.validator_history) col.fail_at
        (exec_node "response_generator" (response_generator_logic (col.gen_out gens))
          col.fail_at s))
      = gen_invocations s + 1 := by
  obtain ⟨hg1, hg2⟩ := exec_gen_facts (col.gen_out gens) col.fail_at s
  obtain ⟨hv1, hv2, hv3⟩ := exec_val_step col.validator_history col.fail_at
    (exec_node "response_generator" (response_generator_logic (col.gen_out gens))
      col.fail_at s)
  have hvalmono : ∀ st : WState, st.last_error.isSome = true →
      (exec_node "quality_validator" (quality_validator_logic col.validator_history)
        col.fail_at st).last_error.isSome = true := by
    intro st hst
    exact exec_node_isSome_mono _ _ _ _
      (fun a b hab => (val_logic_preserves col.validator_history a b hab).2) hst
  refine ⟨?_, ?_, ?_, ?_, ?_⟩
  · rw [hv1, hg1]
  · rcases hv2 with h2 | ⟨h2, h3⟩
    · left; rw [h2, hg2]
    · right
      rw [hg1] at h3
      rw [hg2] at h3
      exact ⟨by rw [h2, hg2], h3⟩
  · intro hs
    apply hvalmono
    exact exec_node_isSome_mono _ _ _ _
      (fun a b hab => (gen_logic_preserves (col.gen_out gens) a b hab).2.1) hs
  · intro hcase
    rcases hcase with hcg | hcv
    · apply hvalmono
      rw [hcg]
      exact exec_node_fail_last_error _ _ _
    · rw [hcv]
      exact exec_node_fail_last_error _ _ _
  · rw [gen_invocations_exec _ _ _ _
        (fun a b hab => (val_logic_preserves col.validator_history a b hab).1),
      gen_invocations_exec _ _ _ _
        (fun a b hab => (gen_logic_preserves (col.gen_out gens) a b hab).1)]
    simp

/-- Combined facts about the formatter exit of the loop. -/
lemma loop_exit_facts (col : Collab) (hf : col.fail_at ≠ some "output_formatter")
    (s2 : WState) :
    (exec_node "output_formatter" output_formatter_logic col.fail_at s2).workflow_complete
      = true ∧
    (∃ t, (exec_node "output_formatter" output_formatter_logic col.fail_at s2).final_output
      = some t ∧ t ≠ "") ∧
    (s2.last_error.isSome = true →
      (exec_node "output_formatter" output_formatter_logic col.fail_at s2).last_error.isSome
        = true) ∧
    (exec_node "output_formatter" output_formatter_logic col.fail_at s2).regeneration_count
      = s2.regeneration_count ∧
    gen_invocations (exec_node "output_formatter" output_formatter_logic col.fail_at s2)
      = gen_invocations s2 := by
  obtain ⟨h1, h2⟩ := c7_completion s2 col.fail_at hf
  refine ⟨h1, h2, ?_, ?_, ?_⟩
  · exact exec_node_isSome_mono _ _ _ _
      (fun a b hab => (fmt_logic_preserves a b hab).2.1)
  · exact exec_node_count _ _ _ _
      (fun a b hab => (fmt_logic_preserves a b hab).2.2.2)
  · rw [gen_invocations_exec _ _ _ _ (fun a b hab => (fmt_logic_preserves a b hab).1)]
    simp

lemma run_loop_main (col : Collab) (hf : col.fail_at ≠ some "output_formatter") :
    ∀ n gens s,
      s.processing_config.max_regeneration_attempts + 1 - s.regeneration_count ≤ n →
      (run_from_generator col gens s).workflow_complete = true ∧
      (∃ t, (run_from_generator col gens s).final_output = some t ∧ t ≠ "") ∧
      (s.last_error.isSome = true →
        (run_from_generator col gens s).last_error.isSome = true) ∧
      (col.fail_at = some "response_generator" ∨ col.fail_at = some "quality_validator" →
        (run_from_generator col gens s).last_error.isSome = true) ∧
      s.regeneration_count ≤ (run_from_generator col gens s).regeneration_count ∧
      (s.regeneration_count ≤ s.processing_config.max_regeneration_attempts →
        (run_from_generator col gens s).regeneration_count
          ≤ s.processing_config.max_regeneration_attempts) ∧
      gen_invocations (run_from_generator col gens s)
        ≤ gen_invocations s
          + (s.processing_config.max_regeneration_attempts - s.regeneration_count) + 1 := by
  intro n
  induction n with
  | zero =>
    intro gens s hm
    rw [run_from_generator]
    split
    · rename_i hgate
      exfalso
      obtain ⟨hg1, hg2⟩ := exec_gen_facts (col.gen_out gens) col.fail_at s
      obtain ⟨hv1, hv2, hv3⟩ := validator_regen_facts col.validator_history col.fail_at
        (exec_node "response_generator" (response_generator_logic (col.gen_out gens))
          col.fail_at s) hgate
      rw [hg1, hg2] at hv3
      omega
    · obtain ⟨hs1, hs2, hs3, hs4, hs5⟩ := loop_step_facts col gens s
      obtain ⟨he1, he2, he3, he4, he5⟩ := loop_exit_facts col hf
        (exec_node "quality_validator" (quality_validator_logic col.validator_history)
          col.fail_at (exec_node "response_generator"
            (response_generator_logic (col.gen_out gens)) col.fail_at s))
      refine ⟨he1, he2, ?_, ?_, ?_, ?_, ?_⟩
      · intro h0; exact he3 (hs3 h0)
      · intro h0; exact he3 (hs4 h0)
      · rw [he4]; rcases hs2 with h2 | ⟨h2, _⟩ <;> omega
      · intro h0; rw [he4]; rcases hs2 with h2 | ⟨h2, h3⟩ <;> omega
      · rw [he5, hs5]; omega
  | succ n ih =>
    intro gens s hm
    rw [run_from_generator]
    split
    · rename_i hgate
      obtain ⟨hg1, hg2⟩ := exec_gen_facts (col.gen_out gens) col.fail_at s
      obtain ⟨hv1, hv2, hv3⟩ := validator_regen_facts col.validator_history col.fail_at
        (exec_node "response_generator" (response_generator_logic (col.gen_out gens))
          col.fail_at s) hgate
      obtain ⟨hs1, hs2, hs3, hs4, hs5⟩ := loop_step_facts col gens s
      rw [hg1] at hv3
      rw [hg2] at hv3
      have e1 : (exec_node "quality_validator"
            (quality_validator_logic col.validator_history) col.fail_at
            (exec_node "response_generator" (response_generator_logic (col.gen_out gens))
              col.fail_at s)).processing_config.max_regeneration_attempts
          = s.processing_config.max_regeneration_attempts := by
        rw [hs1]
      have e2 : (exec_node "quality_validator"
            (quality_validator_logic col.validator_history) col.fail_at
            (exec_node "response_generator" (response_generator_logic (col.gen_out gens))
              col.fail_at s)).regeneration_count = s.regeneration_count + 1 := by
        rw [hv2, hg2]
      have hmeas : (exec_node "quality_validator"
            (quality_validator_logic col.validator_history) col.fail_at
            (exec_node "response_generator" (response_generator_logic (col.gen_out gens))
              col.fail_at s)).processing_config.max_regeneration_attempts + 1 -
          (exec_node "quality_validator" (quality_validator_logic col.validator_history)
            col.fail_at (exec_node "response_generator"
              (response_generator_logic (col.gen_out gens)) col.fail_at s)).regeneration_count
          ≤ n := by
        rw [e1, e2]
        omega
      obtain ⟨ih1, ih2, ih3, ih4, ih5, ih6, ih7⟩ := ih (gens + 1) _ hmeas
      refine ⟨ih1, ih2, ?_, ih4, ?_, ?_, ?_⟩
      · intro h0; exact ih3 (hs3 h0)
      · omega
      · intro h0
        have h6 := ih6 (by omega)
        omega
      · rw [hs5] at ih7
        omega
    · obtain ⟨hs1, hs2, hs3, hs4, hs5⟩ := loop_step_facts col gens s
      obtain ⟨he1, he2, he3, he4, he5⟩ := loop_exit_facts col hf
        (exec_node "quality_validator" (quality_validator_logic col.validator_history)
          col.fail_at (exec_node "response_generator"
            (response_generator_logic (col.gen_out gens)) col.fail_at s))
      refine ⟨he1, he2, ?_, ?_, ?_, ?_, ?_⟩
      · intro h0; exact he3 (hs3 h0)
      · intro h0; exact he3 (hs4 h0)
      · rw [he4]; rcases hs2 with h2 | ⟨h2, _⟩ <;> omega
      · intro h0; rw [he4]; rcases hs2 with h2 | ⟨h2, h3⟩ <;> omega
      · rw [he5, hs5]; omega

/-! ## Further projection lemmas (front-stage bookkeeping) -/

@[simp] lemma record_processed (s : WState) (i : NodeExecutionInfo) :
    (record_node_execution s i).processed_input = s.processed_input := rfl
@[simp] lemma record_content_type (s : WState) (i : NodeExecutionInfo) :
    (record_node_execution s i).content_type = s.content_type := rfl
@[simp] lemma record_pstate (s : WState) (i : NodeExecutionInfo) :
    (record_node_execution s i).personality_state = s.personality_state := rfl
@[simp] lemma record_generated (s : WState) (i : NodeExecutionInfo) :
    (record_node_execution s i).generated_content = s.generated_content := rfl
@[simp] lemma record_routing (s : WState) (i : NodeExecutionInfo) :
    (record_node_execution s i).routing_decision = s.routing_decision := rfl

@[simp] lemma add_error_processed (s : WState) (e : ProcessingError) :
    (add_error s e).processed_input = s.processed_input := rfl
@[simp] lemma add_error_content_type (s : WState) (e : ProcessingError) :
    (add_error s e).content_type = s.content_type := rfl
@[simp] lemma add_error_pstate (s : WState) (e : ProcessingError) :
    (add_error s e).personality_state = s.personality_state := rfl
@[simp] lemma add_error_generated (s : WState) (e : ProcessingError) :
    (add_error s e).generated_content = s.generated_content := rfl
@[simp] lemma add_error_routing (s : WState) (e : ProcessingError) :
    (add_error s e).routing_decision = s.routing_decision := rfl

@[simp] lemma update_stage_processed (s : WState) (st : WorkflowStage) :
    (update_stage s st).processed_input = s.processed_input := rfl
@[simp] lemma update_stage_content_type (s : WState) (st : WorkflowStage) :
    (update_stage s st).content_type = s.content_type := rfl
@[simp] lemma update_stage_pstate (s : WState) (st : WorkflowStage) :
    (update_stage s st).personality_state = s.personality_state := rfl
@[simp] lemma update_stage_generated (s : WState) (st : WorkflowStage) :
    (update_stage s st).generated_content = s.generated_content := rfl
@[simp] lemma update_stage_routing (s : WState) (st : WorkflowStage) :
    (update_stage s st).routing_decision = s.routing_decision := rfl

@[simp] lemma add_qc_pstate (s : WState) (q : QualityCheckResult) :
    (add_quality_check s q).personality_state = s.personality_state := rfl
@[simp] lemma add_qc_generated (s : WState) (q : QualityCheckResult) :
    (add_quality_check s q).generated_content = s.generated_content := rfl

/-! ## Front-stage equation lemmas -/

/-- Definitional unfolding of `input_processor_logic`. -/
lemma input_processor_logic_eq (s : WState) :
    input_processor_logic s = .ok (update_stage
      { s with content_type := some (classify_intent s.raw_input).1,
               confidence_score := (classify_intent s.raw_input).2,
               extracted_entities := some (extract_entities s.raw_input),
               processing_priority := determine_priority s.raw_input
                 (classify_intent s.raw_input).1,
               processed_input := some ⟨lcStrip s.raw_input.data⟩ }
      .personality_applied) := rfl

/-- `personality_filter_logic` on a state with processed input. -/
lemma personality_filter_logic_eq_some (fs : PersonalityState) (s : WState)
    (p : String) (h : s.processed_input = some p) :
    personality_filter_logic fs s
      = .ok (update_stage { s with personality_state := fs } .content_routed) := by
  rw [personality_filter_logic, h]

/-- `personality_filter_logic` crashes on a `None` processed input. -/
lemma personality_filter_logic_eq_none (fs : PersonalityState) (s : WState)
    (h : s.processed_input = none) :
    personality_filter_logic fs s
      = .error ⟨"AttributeError", "NoneType object has no attribute lower"⟩ := by
  rw [personality_filter_logic, h]

/-- Definitional unfolding of `content_router_logic`. -/
lemma content_router_logic_eq (s : WState) :
    content_router_logic s = .ok (update_stage
      { s with
          routing_decision := some (make_routing_decision s.content_type s.confidence_score),
          processing_flags := some (set_processing_flags s.content_type s) }
      .processing) := rfl

/-- A state whose stage is not the error sentinel is never routed to the
error-handling edge: every routing-table entry maps elsewhere. -/
lemma route_content_ne_error (s : WState) (h : ¬ s.current_stage = .error) :
    route_content s ≠ "error_handling" := by
  rw [route_content, if_neg h]
  dsimp only
  split
  · decide
  · split
    · decide
    · split
      · decide
      · split
        · decide
        · split <;> decide

/-! ## Preservation of completion fields and front-stage facts -/

lemma exec_node_complete (n : String) (logic : WState → Except PyExc WState)
    (f : Option String) (s : WState)
    (hc : ∀ st st', logic st = .ok st' → st'.workflow_complete = st.workflow_complete) :
    (exec_node n logic f s).workflow_complete = s.workflow_complete := by
  rw [exec_node, base_node_execute]
  rcases hres : (if f = some n then Except.error injected_exception
      else logic s : Except PyExc WState) with e | s'
  · rfl
  · dsimp only
    rw [record_complete, hc s s' (exec_node_inner_ok hres)]

lemma exec_node_final (n : String) (logic : WState → Except PyExc WState)
    (f : Option String) (s : WState)
    (hc : ∀ st st', logic st = .ok st' → st'.final_output = st.final_output) :
    (exec_node n logic f s).final_output = s.final_output := by
  rw [exec_node, base_node_execute]
  rcases hres : (if f = some n then Except.error injected_exception
      else logic s : Except PyExc WState) with e | s'
  · rfl
  · dsimp only
    rw [record_final_output, hc s s' (exec_node_inner_ok hres)]

lemma exec_node_pstate (n : String) (logic : WState → Except PyExc WState)
    (f : Option String) (s : WState)
    (hc : ∀ st st', logic st = .ok st' → st'.personality_state = st.personality_state) :
    (exec_node n logic f s).personality_state = s.personality_state := by
  rw [exec_node, base_node_execute]
  rcases hres : (if f = some n then Except.error injected_exception
      else logic s : Except PyExc WState) with e | s'
  · rfl
  · dsimp only
    rw [record_pstate, hc s s' (exec_node_inner_ok hres)]

lemma gen_logic_preserves_more (g : String) : ∀ s s',
    response_generator_logic g s = .ok s' →
    s'.workflow_complete = s.workflow_complete ∧
    s'.final_output = s.final_output ∧
    s'.personality_state = s.personality_state := by
  intro s s' h
  rw [response_generator_logic_eq] at h
  simp only [Except.ok.injEq] at h
  subst h
  exact ⟨rfl, rfl, rfl⟩

lemma val_logic_preserves_more (vh : List Q) : ∀ s s',
    quality_validator_logic vh s = .ok s' →
    s'.workflow_complete = s.workflow_complete ∧
    s'.final_output = s.final_output ∧
    s'.personality_state = s.personality_state ∧
    s'.processing_config = s.processing_config := by
  intro s s' h
  rw [quality_validator_logic_eq] at h
  rcases hp : perform_quality_checks (s.generated_content.getD "")
      s.personality_state.dimensions s.processing_config
      ({} : PersonalityDimensions).tomato_obsession_level vh with e | q
  · rw [hp] at h; exact absurd h (by simp)
  · rw [hp] at h
    dsimp only at h
    split at h <;>
      (simp only [Except.ok.injEq] at h; subst h; exact ⟨rfl, rfl, rfl, rfl⟩)

lemma run_loop_fmt_fail (col : Collab) (hf : col.fail_at = some "output_formatter") :
    ∀ n gens s,
      s.processing_config.max_regeneration_attempts + 1 - s.regeneration_count ≤ n →
      (run_from_generator col gens s).workflow_complete = s.workflow_complete ∧
      (run_from_generator col gens s).final_output = s.final_output ∧
      (run_from_generator col gens s).last_error.isSome = true := by
  have hstep : ∀ gens (s : WState),
      (exec_node "quality_validator" (quality_validator_logic col.validator_history)
        col.fail_at (exec_node "response_generator"
          (response_generator_logic (col.gen_out gens)) col.fail_at s)).workflow_complete
        = s.workflow_complete ∧
      (exec_node "quality_validator" (quality_validator_logic col.validator_history)
        col.fail_at (exec_node "response_generator"
          (response_generator_logic (col.gen_out gens)) col.fail_at s)).final_output
        = s.final_output := by
    intro gens s
    constructor
    · rw [exec_node_complete _ _ _ _
          (fun a b hab => (val_logic_preserves_more col.validator_history a b hab).1),
        exec_node_complete _ _ _ _
          (fun a b hab => (gen_logic_preserves_more (col.gen_out gens) a b hab).1)]
    · rw [exec_node_final _ _ _ _
          (fun a b hab => (val_logic_preserves_more col.validator_history a b hab).2.1),
        exec_node_final _ _ _ _
          (fun a b hab => (gen_logic_preserves_more (col.gen_out gens) a b hab).2.1)]
  intro n
  induction n with
  | zero =>
    intro gens s hm
    rw [run_from_generator]
    split
    · rename_i hgate
      exfalso
      obtain ⟨hg1, hg2⟩ := exec_gen_facts (col.gen_out gens) col.fail_at s
      obtain ⟨hv1, hv2, hv3⟩ := validator_regen_facts col.validator_history col.fail_at
        (exec_node "response_generator" (response_generator_logic (col.gen_out gens))
          col.fail_at s) hgate
      rw [hg1, hg2] at hv3
      omega
    · obtain ⟨hc1, hc2⟩ := hstep gens s
      rw [exec_node_of_fail hf]
      refine ⟨?_, ?_, rfl⟩
      · rw [record_complete, add_error_complete, hc1]
      · rw [record_final_output, add_error_final_output, hc2]
  | succ n ih =>
    intro gens s hm
    rw [run_from_generator]
    split
    · rename_i hgate
      obtain ⟨hg1, hg2⟩ := exec_gen_facts (col.gen_out gens) col.fail_at s
      obtain ⟨hv1, hv2, hv3⟩ := validator_regen_facts col.validator_history col.fail_at
        (exec_node "response_generator" (response_generator_logic (col.gen_out gens))
          col.fail_at s) hgate
      rw [hg1] at hv3
      rw [hg2] at hv3
      obtain ⟨hc1, hc2⟩ := hstep gens s
      have hmeas : (exec_node "quality_validator"
            (quality_validator_logic col.validator_history) col.fail_at
            (exec_node "response_generator" (response_generator_logic (col.gen_out gens))
              col.fail_at s)).processing_config.max_regeneration_attempts + 1 -
          (exec_node "quality_validator" (quality_validator_logic col.validator_history)
            col.fail_at (exec_node "response_generator"
              (response_generator_logic (col.gen_out gens)) col.fail_at s)).regeneration_count
          ≤ n := by
        have e1 : (exec_node "quality_validator"
              (quality_validator_logic col.validator_history) col.fail_at
              (exec_node "response_generator" (response_generator_logic (col.gen_out gens))
                col.fail_at s)).processing_config = s.processing_config := by
          obtain ⟨hs1, _, _, _, _⟩ := loop_step_facts col gens s
          exact hs1
        rw [e1, hv2, hg2]
        omega
      obtain ⟨ih1, ih2, ih3⟩ := ih (gens + 1) _ hmeas
      refine ⟨?_, ?_, ih3⟩
      · rw [ih1, hc1]
      · rw [ih2, hc2]
    · obtain ⟨hc1, hc2⟩ := hstep gens s
      rw [exec_node_of_fail hf]
      refine ⟨?_, ?_, rfl⟩
      · rw [record_complete, add_error_complete, hc1]
      · rw [record_final_output, add_error_final_output, hc2]

lemma exec_fail_facts (n : String) (logic : WState → Except PyExc WState)
    (f : Option String) (s : WState) (hf : f = some n) :
    (exec_node n logic f s).current_stage = .error ∧
    (exec_node n logic f s).last_error.isSome = true ∧
    (exec_node n logic f s).processing_config = s.processing_config ∧
    (exec_node n logic f s).regeneration_count = s.regeneration_count ∧
    (exec_node n logic f s).processed_input = s.processed_input ∧
    (exec_node n logic f s).content_type = s.content_type ∧
    (exec_node n logic f s).workflow_complete = s.workflow_complete ∧
    (exec_node n logic f s).final_output = s.final_output ∧
    (exec_node n logic f s).personality_state = s.personality_state := by
  rw [exec_node_of_fail hf]
  exact ⟨rfl, rfl, rfl, rfl, rfl, rfl, rfl, rfl, rfl⟩

lemma ip_exec_facts (f : Option String) (s : WState) (h : f ≠ some "input_processor") :
    (exec_node "input_processor" input_processor_logic f s).processed_input
      = some ⟨lcStrip s.raw_input.data⟩ ∧
    (exec_node "input_processor" input_processor_logic f s).current_stage
      = .personality_applied ∧
    (exec_node "input_processor" input_processor_logic f s).processing_config
      = s.processing_config ∧
    (exec_node "input_processor" input_processor_logic f s).regeneration_count
      = s.regeneration_count ∧
    (exec_node "input_processor" input_processor_logic f s).last_error = s.last_error ∧
    (exec_node "input_processor" input_processor_logic f s).workflow_complete
      = s.workflow_complete ∧
    (exec_node "input_processor" input_processor_logic f s).final_output
      = s.final_output ∧
    (exec_node "input_processor" input_processor_logic f s).personality_state
      = s.personality_state := by
  rw [exec_node_of_ok h (input_processor_logic_eq s)]
  exact ⟨rfl, rfl, rfl, rfl, rfl, rfl, rfl, rfl⟩

lemma pf_exec_facts (fs : PersonalityState) (f : Option String) (s : WState)
    (p : String) (h : f ≠ some "personality_filter") (hp : s.processed_input = some p) :
    (exec_node "personality_filter" (personality_filter_logic fs) f s).personality_state
      = fs ∧
    (exec_node "personality_filter" (personality_filter_logic fs) f s).current_stage
      = .content_routed ∧
    (exec_node "personality_filter" (personality_filter_logic fs) f s).processing_config
      = s.processing_config ∧
    (exec_node "personality_filter" (personality_filter_logic fs) f s).regeneration_count
      = s.regeneration_count ∧
    (exec_node "personality_filter" (personality_filter_logic fs) f s).last_error
      = s.last_error ∧
    (exec_node "personality_filter" (personality_filter_logic fs) f s).workflow_complete
      = s.workflow_complete ∧
    (exec_node "personality_filter" (personality_filter_logic fs) f s).final_output
      = s.final_output := by
  rw [exec_node_of_ok h (personality_filter_logic_eq_some fs s p hp)]
  exact ⟨rfl, rfl, rfl, rfl, rfl, rfl, rfl⟩

lemma pf_exec_fail_none (fs : PersonalityState) (f : Option String) (s : WState)
    (h : f ≠ some "personality_filter") (hp : s.processed_input = none) :
    (exec_node "personality_filter" (personality_filter_logic fs) f s).current_stage
      = .error ∧
    (exec_node "personality_filter" (personality_filter_logic fs) f s).last_error.isSome
      = true ∧
    (exec_node "personality_filter" (personality_filter_logic fs) f s).processing_config
      = s.processing_config ∧
    (exec_node "personality_filter" (personality_filter_logic fs) f s).regeneration_count
      = s.regeneration_count ∧
    (exec_node "personality_filter" (personality_filter_logic fs) f s).content_type
      = s.content_type ∧
    (exec_node "personality_filter" (personality_filter_logic fs) f s).workflow_complete
      = s.workflow_complete ∧
    (exec_node "personality_filter" (personality_filter_logic fs) f s).final_output
      = s.final_output := by
  rw [exec_node_of_error h (personality_filter_logic_eq_none fs s hp)]
  exact ⟨rfl, rfl, rfl, rfl, rfl, rfl, rfl⟩

lemma cr_exec_facts (f : Option String) (s : WState) (h : f ≠ some "content_router") :
    (exec_node "content_router" content_router_logic f s).current_stage = .processing ∧
    (exec_node "content_router" content_router_logic f s).processing_config
      = s.processing_config ∧
    (exec_node "content_router" content_router_logic f s).regeneration_count
      = s.regeneration_count ∧
    (exec_node "content_router" content_router_logic f s).last_error = s.last_error ∧
    (exec_node "content_router" content_router_logic f s).workflow_complete
      = s.workflow_complete ∧
    (exec_node "content_router" content_router_logic f s).final_output = s.final_output ∧
    (exec_node "content_router" content_router_logic f s).personality_state
      = s.personality_state := by
  rw [exec_node_of_ok h (content_router_logic_eq s)]
  exact ⟨rfl, rfl, rfl, rfl, rfl, rfl, rfl⟩

/-! ## Workflow-level equations and the C4 analysis -/

lemma run_workflow_eq (col : Collab) (s0 : WState) :
    run_workflow col s0 =
      if route_content (exec_node "content_router" content_router_logic col.fail_at
          (exec_node "personality_filter" (personality_filter_logic col.filter_state)
            col.fail_at (exec_node "input_processor" input_processor_logic col.fail_at s0)))
          = "error_handling" then
        exec_node "output_formatter" output_formatter_logic col.fail_at
          (exec_node "content_router" content_router_logic col.fail_at
            (exec_node "personality_filter" (personality_filter_logic col.filter_state)
              col.fail_at (exec_node "input_processor" input_processor_logic col.fail_at s0)))
      else
        run_from_generator col 0
          (exec_node "content_router" content_router_logic col.fail_at
            (exec_node "personality_filter" (personality_filter_logic col.filter_state)
              col.fail_at (exec_node "input_processor" input_processor_logic col.fail_at s0))) :=
  rfl

lemma apply_fp_facts (input sid : String) (fp : Option FormatPreferences) :
    (apply_format_prefs (create_initial_state input sid) fp).processed_input = none ∧
    (apply_format_prefs (create_initial_state input sid) fp).workflow_complete = false ∧
    (apply_format_prefs (create_initial_state input sid) fp).final_output = none ∧
    (apply_format_prefs (create_initial_state input sid) fp).last_error = none ∧
    (apply_format_prefs (create_initial_state input sid) fp).current_stage
      = .input_received ∧
    (apply_format_prefs (create_initial_state input sid) fp).content_type = none ∧
    (apply_format_prefs (create_initial_state input sid) fp).regeneration_count = 0 := by
  cases fp <;> exact ⟨rfl, rfl, rfl, rfl, rfl, rfl, rfl⟩

/-- C4 (amended): `process(...)` always returns a result object (the model
is a total function), and injecting a failure into any single stage yields
a completed call whose result records the error; but `success` merely
mirrors `workflow_complete`: it is `true` (with a non-empty response) when
the failing stage is not the output formatter, and `false` with an *empty*
response when the formatter itself fails — not `success=false` with a
non-empty response as claimed. -/
theorem c4_error_containment (col : Collab) (input sid : String)
    (fp : Option FormatPreferences) (st : String)
    (hst : st ∈ ["input_processor", "personality_filter", "content_router",
                 "response_generator", "quality_validator", "output_formatter"])
    (hfail : col.fail_at = some st) :
    (process_user_input col input sid fp).error.isSome = true ∧
    (st ≠ "output_formatter" →
      (process_user_input col input sid fp).success = true ∧
      ∃ t, (process_user_input col input sid fp).response = some t ∧ t ≠ "") ∧
    (st = "output_formatter" →
      (process_user_input col input sid fp).success = false ∧
      (process_user_input col input sid fp).response = none) := by
  have hsuc : (process_user_input col input sid fp).success
      = (run_workflow col (apply_format_prefs (create_initial_state input sid) fp)).workflow_complete := rfl
  have hresp : (process_user_input col input sid fp).response
      = (run_workflow col (apply_format_prefs (create_initial_state input sid) fp)).final_output := rfl
  have herr : (process_user_input col input sid fp).error
      = (run_workflow col (apply_format_prefs (create_initial_state input sid) fp)).last_error := rfl
  obtain ⟨hi1, hi2, hi3, hi4, hi5, hi6, hi7⟩ := apply_fp_facts input sid fp
  simp only [List.mem_cons, List.not_mem_nil, or_false] at hst
  rcases hst with rfl | rfl | rfl | rfl | rfl | rfl
  · -- failure injected at input_processor
    obtain ⟨hf1, hf2, hf3, hf4, hf5, hf6, hf7, hf8, hf9⟩ :=
      exec_fail_facts "input_processor" input_processor_logic col.fail_at
        (apply_format_prefs (create_initial_state input sid) fp) hfail
    have hne2 : col.fail_at ≠ some "personality_filter" := by rw [hfail]; decide
    have hne3 : col.fail_at ≠ some "content_router" := by rw [hfail]; decide
    have hfmt : col.fail_at ≠ some "output_formatter" := by rw [hfail]; decide
    have hproc1 : (exec_node "input_processor" input_processor_logic col.fail_at
        (apply_format_prefs (create_initial_state input sid) fp)).processed_input
        = none := by rw [hf5, hi1]
    obtain ⟨hp1, hp2, hp3, hp4, hp5, hp6, hp7⟩ :=
      pf_exec_fail_none col.filter_state col.fail_at _ hne2 hproc1
    obtain ⟨hc1, hc2, hc3, hc4, hc5, hc6, hc7⟩ := cr_exec_facts col.fail_at _ hne3
    have hroute : route_content (exec_node "content_router" content_router_logic
        col.fail_at (exec_node "personality_filter"
          (personality_filter_logic col.filter_state) col.fail_at
          (exec_node "input_processor" input_processor_logic col.fail_at
            (apply_format_prefs (create_initial_state input sid) fp))))
        ≠ "error_handling" :=
      route_content_ne_error _ (by rw [hc1]; decide)
    obtain ⟨l1, l2, l3, l4, l5, l6, l7⟩ := run_loop_main col hfmt _ 0 _ (le_refl _)
    rw [hsuc, hresp, herr, run_workflow_eq, if_neg hroute]
    refine ⟨?_, fun _ => ⟨l1, l2⟩, fun hx => absurd hx (by decide)⟩
    exact l3 (by rw [hc4]; exact hp2)
  · -- failure injected at personality_filter
    have hne1 : col.fail_at ≠ some "input_processor" := by rw [hfail]; decide
    have hne3 : col.fail_at ≠ some "content_router" := by rw [hfail]; decide
    have hfmt : col.fail_at ≠ some "output_formatter" := by rw [hfail]; decide
    obtain ⟨hip1, hip2, hip3, hip4, hip5, hip6, hip7, hip8⟩ :=
      ip_exec_facts col.fail_at (apply_format_prefs (create_initial_state input sid) fp) hne1
    obtain ⟨hf1, hf2, hf3, hf4, hf5, hf6, hf7, hf8, hf9⟩ :=
      exec_fail_facts "personality_filter" (personality_filter_logic col.filter_state)
        col.fail_at _ hfail
    obtain ⟨hc1, hc2, hc3, hc4, hc5, hc6, hc7⟩ := cr_exec_facts col.fail_at _ hne3
    have hroute : route_content (exec_node "content_router" content_router_logic
        col.fail_at (exec_node "personality_filter"
          (personality_filter_logic col.filter_state) col.fail_at
          (exec_node "input_processor" input_processor_logic col.fail_at
            (apply_format_prefs (create_initial_state input sid) fp))))
        ≠ "error_handling" :=
      route_content_ne_error _ (by rw [hc1]; decide)
    obtain ⟨l1, l2, l3, l4, l5, l6, l7⟩ := run_loop_main col hfmt _ 0 _ (le_refl _)
    rw [hsuc, hresp, herr, run_workflow_eq, if_neg hroute]
    refine ⟨?_, fun _ => ⟨l1, l2⟩, fun hx => absurd hx (by decide)⟩
    exact l3 (by rw [hc4]; exact hf2)
  · -- failure injected at content_router
    have hne1 : col.fail_at ≠ some "input_processor" := by rw [hfail]; decide
    have hne2 : col.fail_at ≠ some "personality_filter" := by rw [hfail]; decide
    have hfmt : col.fail_at ≠ some "output_formatter" := by rw [hfail]; decide
    obtain ⟨hip1, hip2, hip3, hip4, hip5, hip6, hip7, hip8⟩ :=
      ip_exec_facts col.fail_at (apply_format_prefs (create_initial_state input sid) fp) hne1
    obtain ⟨hp1, hp2, hp3, hp4, hp5, hp6, hp7⟩ :=
      pf_exec_facts col.filter_state col.fail_at _ _ hne2 hip1
    obtain ⟨hf1, hf2, hf3, hf4, hf5, hf6, hf7, hf8, hf9⟩ :=
      exec_fail_facts "content_router" content_router_logic col.fail_at _ hfail
    have hroute : route_content (exec_node "content_router" content_router_logic
        col.fail_at (exec_node "personality_filter"
          (personality_filter_logic col.filter_state) col.fail_at
          (exec_node "input_processor" input_processor_logic col.fail_at
            (apply_format_prefs (create_initial_state input sid) fp))))
        = "error_handling" := by
      rw [route_content, hf1]
      rfl
    obtain ⟨he1, he2, he3, he4, he5⟩ := loop_exit_facts col hfmt
      (exec_node "content_router" content_router_logic col.fail_at
        (exec_node "personality_filter" (personality_filter_logic col.filter_state)
          col.fail_at (exec_node "input_processor" input_processor_logic col.fail_at
            (apply_format_prefs (create_initial_state input sid) fp))))
    rw [hsuc, hresp, herr, run_workflow_eq, if_pos hroute]
    refine ⟨he3 hf2, fun _ => ⟨he1, he2⟩, fun hx => absurd hx (by decide)⟩
  · -- failure injected at response_generator
    have hne1 : col.fail_at ≠ some "input_processor" := by rw [hfail]; decide
    have hne2 : col.fail_at ≠ some "personality_filter" := by rw [hfail]; decide
    have hne3 : col.fail_at ≠ some "content_router" := by rw [hfail]; decide
    have hfmt : col.fail_at ≠ some "output_formatter" := by rw [hfail]; decide
    obtain ⟨hip1, hip2, hip3, hip4, hip5, hip6, hip7, hip8⟩ :=
      ip_exec_facts col.fail_at (apply_format_prefs (create_initial_state input sid) fp) hne1
    obtain ⟨hp1, hp2, hp3, hp4, hp5, hp6, hp7⟩ :=
      pf_exec_facts col.filter_state col.fail_at _ _ hne2 hip1
    obtain ⟨hc1, hc2, hc3, hc4, hc5, hc6, hc7⟩ := cr_exec_facts col.fail_at _ hne3
    have hroute : route_content (exec_node "content_router" content_router_logic
        col.fail_at (exec_node "personality_filter"
          (personality_filter_logic col.filter_state) col.fail_at
          (exec_node "input_processor" input_processor_logic col.fail_at
            (apply_format_prefs (create_initial_state input sid) fp))))
        ≠ "error_handling" :=
      route_content_ne_error _ (by rw [hc1]; decide)
    obtain ⟨l1, l2, l3, l4, l5, l6, l7⟩ := run_loop_main col hfmt _ 0 _ (le_refl _)
    rw [hsuc, hresp, herr, run_workflow_eq, if_neg hroute]
    refine ⟨l4 (Or.inl hfail), fun _ => ⟨l1, l2⟩, fun hx => absurd hx (by decide)⟩
  · -- failure injected at quality_validator
    have hne1 : col.fail_at ≠ some "input_processor" := by rw [hfail]; decide
    have hne2 : col.fail_at ≠ some "personality_filter" := by rw [hfail]; decide
    have hne3 : col.fail_at ≠ some "content_router" := by rw [hfail]; decide
    have hfmt : col.fail_at ≠ some "output_formatter" := by rw [hfail]; decide
    obtain ⟨hip1, hip2, hip3, hip4, hip5, hip6, hip7, hip8⟩ :=
      ip_exec_facts col.fail_at (apply_format_prefs (create_initial_state input sid) fp) hne1
    obtain ⟨hp1, hp2, hp3, hp4, hp5, hp6, hp7⟩ :=
      pf_exec_facts col.filter_state col.fail_at _ _ hne2 hip1
    obtain ⟨hc1, hc2, hc3, hc4, hc5, hc6, hc7⟩ := cr_exec_facts col.fail_at _ hne3
    have hroute : route_content (exec_node "content_router" content_router_logic
        col.fail_at (exec_node "personality_filter"
          (personality_filter_logic col.filter_state) col.fail_at
          (exec_node "input_processor" input_processor_logic col.fail_at
            (apply_format_prefs (create_initial_state input sid) fp))))
        ≠ "error_handling" :=
      route_content_ne_error _ (by rw [hc1]; decide)
    obtain ⟨l1, l2, l3, l4, l5, l6, l7⟩ := run_loop_main col hfmt _ 0 _ (le_refl _)
    rw [hsuc, hresp, herr, run_workflow_eq, if_neg hroute]
    refine ⟨l4 (Or.inr hfail), fun _ => ⟨l1, l2⟩, fun hx => absurd hx (by decide)⟩
  · -- failure injected at output_formatter
    have hne1 : col.fail_at ≠ some "input_processor" := by rw [hfail]; decide
    have hne2 : col.fail_at ≠ some "personality_filter" := by rw [hfail]; decide
    have hne3 : col.fail_at ≠ some "content_router" := by rw [hfail]; decide
    obtain ⟨hip1, hip2, hip3, hip4, hip5, hip6, hip7, hip8⟩ :=
      ip_exec_facts col.fail_at (apply_format_prefs (create_initial_state input sid) fp) hne1
    obtain ⟨hp1, hp2, hp3, hp4, hp5, hp6, hp7⟩ :=
      pf_exec_facts col.filter_state col.fail_at _ _ hne2 hip1
    obtain ⟨hc1, hc2, hc3, hc4, hc5, hc6, hc7⟩ := cr_exec_facts col.fail_at _ hne3
    have hroute : route_content (exec_node "content_router" content_router_logic
        col.fail_at (exec_node "personality_filter"
          (personality_filter_logic col.filter_state) col.fail_at
          (exec_node "input_processor" input_processor_logic col.fail_at
            (apply_format_prefs (create_initial_state input sid) fp))))
        ≠ "error_handling" :=
      route_content_ne_error _ (by rw [hc1]; decide)
    obtain ⟨m1, m2, m3⟩ := run_loop_fmt_fail col hfail _ 0 _ (le_refl _)
    rw [hsuc, hresp, herr, run_workflow_eq, if_neg hroute]
    refine ⟨m3, fun hx => absurd rfl hx, fun _ => ⟨?_, ?_⟩⟩
    · rw [m1, hc5, hp6, hip6, hi2]
    · rw [m2, hc6, hp7, hip7, hi3]

/-- A run whose content-router stage always raises. -/
def c4_col : Collab :=
  { gen_out := fun _ => "x", fail_at := some "content_router" }

/-- Witness for `c4_error_containment` with the failure injected at the
content router. -/
theorem c4_error_containment_witness :
    (process_user_input c4_col "hello" "s1" none).error.isSome = true ∧
    ("content_router" ≠ "output_formatter" →
      (process_user_input c4_col "hello" "s1" none).success = true ∧
      ∃ t, (process_user_input c4_col "hello" "s1" none).response = some t ∧ t ≠ "") ∧
    ("content_router" = "output_formatter" →
      (process_user_input c4_col "hello" "s1" none).success = false ∧
      (process_user_input c4_col "hello" "s1" none).response = none) :=
  c4_error_containment c4_col "hello" "s1" none "content_router" (by decide) rfl

/-- C4 (counterexample): injecting a failure into the content-router stage
yields a completed `process` call whose error is recorded but whose
`success` is `true` — the claim that any internal failure surfaces as
`success=false` is violated. -/
theorem c4_failure_not_surfaced_as_unsuccessful :
    (process_user_input c4_col "hello" "s1" none).success = true ∧
    (process_user_input c4_col "hello" "s1" none).error.isSome = true ∧
    (process_user_input c4_col "hello" "s1" none).success ≠ false := by
  have h1 : (process_user_input c4_col "hello" "s1" none).success = true := by decide
  have h2 : (process_user_input c4_col "hello" "s1" none).error.isSome = true := by decide
  exact ⟨h1, h2, by rw [h1]; decide⟩

/-- The generator stage stores the oracle output and leaves the persona
state untouched (follows `response_generator_logic`). -/
lemma gen_exec_more (g : String) (f : Option String) (s : WState)
    (h : f ≠ some "response_generator") :
    (exec_node "response_generator" (response_generator_logic g) f s).generated_content
      = some g ∧
    (exec_node "response_generator" (response_generator_logic g) f s).personality_state
      = s.personality_state := by
  rw [exec_node_of_ok h (response_generator_logic_eq g s)]
  exact ⟨rfl, rfl⟩

/-- When the quality check fails on every generated content, the
regeneration loop drives the counter exactly to the configured maximum
before exiting through the formatter. -/
lemma run_loop_all_fail (col : Collab) (hf : col.fail_at = none)
    (dims : PersonalityDimensions) (cfg : ProcessingConfig)
    (hq : ∀ m : Nat, ∃ q, perform_quality_checks (col.gen_out m) dims cfg
        ({} : PersonalityDimensions).tomato_obsession_level col.validator_history
          = .ok q ∧ q.passed = false) :
    ∀ n gens s,
      cfg.max_regeneration_attempts + 1 - s.regeneration_count ≤ n →
      s.personality_state.dimensions = dims →
      s.processing_config = cfg →
      s.regeneration_count ≤ cfg.max_regeneration_attempts →
      (run_from_generator col gens s).regeneration_count
        = cfg.max_regeneration_attempts := by
  have hfg : col.fail_at ≠ some "response_generator" := by rw [hf]; decide
  have hfv : col.fail_at ≠ some "quality_validator" := by rw [hf]; decide
  have hff : col.fail_at ≠ some "output_formatter" := by rw [hf]; decide
  intro n
  induction n with
  | zero =>
    intro gens s hm hdims hcfg hcnt
    omega
  | succ n ih =>
    intro gens s hm hdims hcfg hcnt
    obtain ⟨hg1, hg2⟩ := exec_gen_facts (col.gen_out gens) col.fail_at s
    obtain ⟨hgen, hgp⟩ := gen_exec_more (col.gen_out gens) col.fail_at s hfg
    obtain ⟨q, hpq, hpassed⟩ := hq gens
    have hperf : perform_quality_checks
        ((exec_node "response_generator" (response_generator_logic (col.gen_out gens))
          col.fail_at s).generated_content.getD "")
        (exec_node "response_generator" (response_generator_logic (col.gen_out gens))
          col.fail_at s).personality_state.dimensions
        (exec_node "response_generator" (response_generator_logic (col.gen_out gens))
          col.fail_at s).processing_config
        ({} : PersonalityDimensions).tomato_obsession_level col.validator_history
        = .ok q := by
      rw [hgen, hgp, hg1, hdims, hcfg]
      exact hpq
    rw [run_from_generator]
    split
    · rename_i hgate
      obtain ⟨hv1, hv2, hv3⟩ := validator_regen_facts col.validator_history col.fail_at
        (exec_node "response_generator" (response_generator_logic (col.gen_out gens))
          col.fail_at s) hgate
      have hvp : (exec_node "quality_validator"
            (quality_validator_logic col.validator_history) col.fail_at
            (exec_node "response_generator" (response_generator_logic (col.gen_out gens))
              col.fail_at s)).personality_state.dimensions = dims := by
        rw [exec_node_pstate _ _ _ _
          (fun a b hab => (val_logic_preserves_more col.validator_history a b hab).2.2.1),
          hgp, hdims]
      have hvc : (exec_node "quality_validator"
            (quality_validator_logic col.validator_history) col.fail_at
            (exec_node "response_generator" (response_generator_logic (col.gen_out gens))
              col.fail_at s)).processing_config = cfg := by
        rw [hv1, hg1, hcfg]
      rw [hg1, hcfg] at hv3
      rw [hg2] at hv3
      exact ih (gens + 1) _ (by rw [hv2, hg2]; omega) hvp hvc (by rw [hv2, hg2]; omega)
    · rename_i hgate
      obtain ⟨he1, he2, he3, he4, he5⟩ := loop_exit_facts col hff
        (exec_node "quality_validator" (quality_validator_logic col.validator_history)
          col.fail_at (exec_node "response_generator"
            (response_generator_logic (col.gen_out gens)) col.fail_at s))
      rw [he4]
      -- with an always-failing check, a non-"regenerate" gate answer right
      -- after the validator forces the counter to have reached the cap
      by_cases hr : is_regeneration_needed (add_quality_check
          (exec_node "response_generator" (response_generator_logic (col.gen_out gens))
            col.fail_at s) q) = true
      · have hlog : quality_validator_logic col.validator_history
            (exec_node "response_generator" (response_generator_logic (col.gen_out gens))
              col.fail_at s) = .ok (update_stage
            { add_quality_check (exec_node "response_generator"
                (response_generator_logic (col.gen_out gens)) col.fail_at s) q with
                regeneration_count := (add_quality_check (exec_node "response_generator"
                  (response_generator_logic (col.gen_out gens)) col.fail_at s)
                    q).regeneration_count + 1 }
            .processing) := by
          rw [quality_validator_logic_eq, hperf]; simp [hr]
        rw [exec_node_of_ok hfv hlog] at hgate ⊢
        rw [is_regen_add_qc, hpassed] at hr
        simp only [Bool.not_false, Bool.true_and, decide_eq_true_eq] at hr
        rw [hg2, hg1, hcfg] at hr
        rw [check_quality_gate] at hgate
        simp only [record_stage, update_stage_stage] at hgate
        rw [if_neg (by decide)] at hgate
        have hrr : is_regeneration_needed (record_node_execution (update_stage
            { add_quality_check (exec_node "response_generator"
                (response_generator_logic (col.gen_out gens)) col.fail_at s) q with
                regeneration_count := (add_quality_check (exec_node "response_generator"
                  (response_generator_logic (col.gen_out gens)) col.fail_at s)
                    q).regeneration_count + 1 }
            .processing) ⟨"quality_validator", true⟩)
            = (!q.passed && decide (s.regeneration_count + 1
                < cfg.max_regeneration_attempts)) := by
          rw [is_regeneration_needed]
          simp [List.getLast?_concat, hg2, hg1, hcfg]
        rw [hrr, hpassed] at hgate
        simp only [Bool.not_false, Bool.true_and] at hgate
        simp only [record_count, update_stage_count, add_qc_count, hg2]
        by_cases hlt : s.regeneration_count + 1 < cfg.max_regeneration_attempts
        · exfalso
          rw [if_pos (by simpa using hlt)] at hgate
          rw [if_pos] at hgate
          · exact hgate rfl
          · simp only [record_count, update_stage_count, record_config,
              update_stage_config, add_qc_count, add_qc_config, hg2, hg1, hcfg]
            exact hlt
        · omega
      · have hr' : is_regeneration_needed (add_quality_check
            (exec_node "response_generator" (response_generator_logic (col.gen_out gens))
              col.fail_at s) q) = false := by simpa using hr
        have hlog : quality_validator_logic col.validator_history
            (exec_node "response_generator" (response_generator_logic (col.gen_out gens))
              col.fail_at s) = .ok (update_stage (add_quality_check
            (exec_node "response_generator" (response_generator_logic (col.gen_out gens))
              col.fail_at s) q) .output_formatted) := by
          rw [quality_validator_logic_eq, hperf]; simp [hr']
        rw [exec_node_of_ok hfv hlog]
        rw [is_regen_add_qc, hpassed] at hr'
        simp only [Bool.not_false, Bool.true_and, decide_eq_false_iff_not] at hr'
        rw [hg2, hg1, hcfg] at hr'
        simp only [record_count, update_stage_count, add_qc_count, hg2]
        omega

/-- C2: with no injected failure, the regeneration loop terminates with
the generation stage invoked at most `max_regeneration_attempts + 1` times,
and when every quality check comes back `passed = false` the run still
completes as a success with `regeneration_count` equal to
`max_regeneration_attempts`. -/
theorem c2_regeneration_bounded (col : Collab) (input sid : String)
    (fp : Option FormatPreferences) (hf : col.fail_at = none) :
    gen_invocations (run_workflow col
        (apply_format_prefs (create_initial_state input sid) fp))
      ≤ (create_initial_state input sid).processing_config.max_regeneration_attempts
          + 1 ∧
    ((∀ m : Nat, ∃ q, perform_quality_checks (col.gen_out m)
          col.filter_state.dimensions
          (create_initial_state input sid).processing_config
          ({} : PersonalityDimensions).tomato_obsession_level col.validator_history
            = .ok q ∧ q.passed = false) →
      (process_user_input col input sid fp).success = true ∧
      (run_workflow col
          (apply_format_prefs (create_initial_state input sid) fp)).regeneration_count
        = (create_initial_state input sid).processing_config.max_regeneration_attempts) := by
  have hfi : col.fail_at ≠ some "input_processor" := by rw [hf]; decide
  have hfp : col.fail_at ≠ some "personality_filter" := by rw [hf]; decide
  have hfc : col.fail_at ≠ some "content_router" := by rw [hf]; decide
  have hff : col.fail_at ≠ some "output_formatter" := by rw [hf]; decide
  obtain ⟨ha1, ha2, ha3, ha4, ha5, ha6, ha7⟩ := apply_fp_facts input sid fp
  obtain ⟨hi1, hi2, hi3, hi4, hi5, hi6, hi7, hi8⟩ := ip_exec_facts col.fail_at
    (apply_format_prefs (create_initial_state input sid) fp) hfi
  obtain ⟨hp1, hp2, hp3, hp4, hp5, hp6, hp7⟩ := pf_exec_facts col.filter_state col.fail_at
    (exec_node "input_processor" input_processor_logic col.fail_at
      (apply_format_prefs (create_initial_state input sid) fp)) _ hfp hi1
  obtain ⟨hc1, hc2, hc3, hc4, hc5, hc6, hc7⟩ := cr_exec_facts col.fail_at
    (exec_node "personality_filter" (personality_filter_logic col.filter_state) col.fail_at
      (exec_node "input_processor" input_processor_logic col.fail_at
        (apply_format_prefs (create_initial_state input sid) fp))) hfc
  have hroute : ¬ route_content (exec_node "content_router" content_router_logic col.fail_at
      (exec_node "personality_filter" (personality_filter_logic col.filter_state) col.fail_at
        (exec_node "input_processor" input_processor_logic col.fail_at
          (apply_format_prefs (create_initial_state input sid) fp))))
      = "error_handling" :=
    route_content_ne_error _ (by rw [hc1]; decide)
  have hcfg3 : (exec_node "content_router" content_router_logic col.fail_at
      (exec_node "personality_filter" (personality_filter_logic col.filter_state) col.fail_at
        (exec_node "input_processor" input_processor_logic col.fail_at
          (apply_format_prefs (create_initial_state input sid) fp)))).processing_config
      = (create_initial_state input sid).processing_config := by
    rw [hc2, hp3, hi3]
    cases fp <;> rfl
  have hcnt3 : (exec_node "content_router" content_router_logic col.fail_at
      (exec_node "personality_filter" (personality_filter_logic col.filter_state) col.fail_at
        (exec_node "input_processor" input_processor_logic col.fail_at
          (apply_format_prefs (create_initial_state input sid) fp)))).regeneration_count
      = 0 := by
    rw [hc3, hp4, hi4, ha7]
  have hdims3 : (exec_node "content_router" content_router_logic col.fail_at
      (exec_node "personality_filter" (personality_filter_logic col.filter_state) col.fail_at
        (exec_node "input_processor" input_processor_logic col.fail_at
          (apply_format_prefs
            (create_initial_state input sid) fp)))).personality_state.dimensions
      = col.filter_state.dimensions := by
    rw [hc7, hp1]
  have hl_ip : ∀ a b, input_processor_logic a = .ok b →
      b.node_execution_history = a.node_execution_history := by
    intro a b hab
    rw [input_processor_logic_eq] at hab
    simp only [Except.ok.injEq] at hab
    subst hab
    rfl
  have hl_pf : ∀ a b, personality_filter_logic col.filter_state a = .ok b →
      b.node_execution_history = a.node_execution_history := by
    intro a b hab
    rcases hpi : a.processed_input with _ | p
    · rw [personality_filter_logic_eq_none col.filter_state a hpi] at hab
      exact Except.noConfusion hab
    · rw [personality_filter_logic_eq_some col.filter_state a p hpi] at hab
      simp only [Except.ok.injEq] at hab
      subst hab
      rfl
  have hl_cr : ∀ a b, content_router_logic a = .ok b →
      b.node_execution_history = a.node_execution_history := by
    intro a b hab
    rw [content_router_logic_eq] at hab
    simp only [Except.ok.injEq] at hab
    subst hab
    rfl
  have hg3 : gen_invocations (exec_node "content_router" content_router_logic col.fail_at
      (exec_node "personality_filter" (personality_filter_logic col.filter_state) col.fail_at
        (exec_node "input_processor" input_processor_logic col.fail_at
          (apply_format_prefs (create_initial_state input sid) fp)))) = 0 := by
    rw [gen_invocations_exec "content_router" content_router_logic col.fail_at _ hl_cr,
        gen_invocations_exec "personality_filter" (personality_filter_logic col.filter_state)
          col.fail_at _ hl_pf,
        gen_invocations_exec "input_processor" input_processor_logic col.fail_at _ hl_ip]
    have h00 : gen_invocations (apply_format_prefs (create_initial_state input sid) fp)
        = 0 := by
      cases fp <;> rfl
    rw [h00]
    decide
  obtain ⟨l1, l2, l3, l4, l5, l6, l7⟩ := run_loop_main col hff
    ((exec_node "content_router" content_router_logic col.fail_at
      (exec_node "personality_filter" (personality_filter_logic col.filter_state) col.fail_at
        (exec_node "input_processor" input_processor_logic col.fail_at
          (apply_format_prefs
            (create_initial_state input sid)
            fp)))).processing_config.max_regeneration_attempts + 1
      - (exec_node "content_router" content_router_logic col.fail_at
      (exec_node "personality_filter" (personality_filter_logic col.filter_state) col.fail_at
        (exec_node "input_processor" input_processor_logic col.fail_at
          (apply_format_prefs (create_initial_state input sid) fp)))).regeneration_count)
    0
    (exec_node "content_router" content_router_logic col.fail_at
      (exec_node "personality_filter" (personality_filter_logic col.filter_state) col.fail_at
        (exec_node "input_processor" input_processor_logic col.fail_at
          (apply_format_prefs (create_initial_state input sid) fp))))
    (le_refl _)
  constructor
  · rw [run_workflow_eq, if_neg hroute]
    rw [hg3, hcfg3, hcnt3] at l7
    omega
  · intro hq
    constructor
    · have hsucc : (process_user_input col input sid fp).success
          = (run_workflow col
              (apply_format_prefs (create_initial_state input sid) fp)).workflow_complete :=
        rfl
      rw [hsucc, run_workflow_eq, if_neg hroute]
      exact l1
    · rw [run_workflow_eq, if_neg hroute]
      exact run_loop_all_fail col hf col.filter_state.dimensions
        (create_initial_state input sid).processing_config hq
        ((create_initial_state input sid).processing_config.max_regeneration_attempts + 1)
        0 _ (by rw [hcnt3]; omega) hdims3 (by rw [hcfg3]) (by rw [hcnt3]; omega)

/-- A failure-free run whose generator always produces the bare content
"x", which every quality check rejects. -/
def c2_col : Collab := { gen_out := fun _ => "x", fail_at := none }

/-- The quality-check result the validator computes for content "x". -/
def c2_q : QualityCheckResult :=
  { passed := false
    score := ⟨0, 144000000⟩
    issues := ["Low personality consistency",
      "Insufficient tomato integration for obsession level",
      "Insufficient romantic language"]
    suggestions := ["Add more Jeff-specific language and enthusiasm",
      "Add tomato references or suggestions",
      "Add more romantic metaphors and flowery language"]
    personality_consistency := ⟨0, 1⟩
    tomato_integration := ⟨0, 14400⟩
    romantic_elements := ⟨0, 10⟩ }

/-- Witness for C2: the concrete all-fail run on input "make pasta". -/
theorem c2_regeneration_bounded_witness :
    gen_invocations (run_workflow c2_col
        (apply_format_prefs (create_initial_state "make pasta" "s1") none))
      ≤ (create_initial_state "make pasta" "s1").processing_config.max_regeneration_attempts
          + 1 ∧
    (process_user_input c2_col "make pasta" "s1" none).success = true ∧
    (run_workflow c2_col
        (apply_format_prefs (create_initial_state "make pasta" "s1") none)).regeneration_count
      = (create_initial_state "make pasta"
          "s1").processing_config.max_regeneration_attempts := by
  have h := c2_regeneration_bounded c2_col "make pasta" "s1" none rfl
  have hperf : perform_quality_checks "x" c2_col.filter_state.dimensions
      (create_initial_state "make pasta" "s1").processing_config
      ({} : PersonalityDimensions).tomato_obsession_level c2_col.validator_history
        = .ok c2_q := rfl
  have hq : ∀ m : Nat, ∃ q, perform_quality_checks (c2_col.gen_out m)
      c2_col.filter_state.dimensions
      (create_initial_state "make pasta" "s1").processing_config
      ({} : PersonalityDimensions).tomato_obsession_level c2_col.validator_history
        = .ok q ∧ q.passed = false :=
    fun m => ⟨c2_q, hperf, rfl⟩
  exact ⟨h.1, (h.2 hq).1, (h.2 hq).2⟩

/-- C6: within a run, the regeneration counter never decreases and never
resets: the validator is the only stage that touches it, incrementing it by
exactly 1 precisely on a failed-and-retried quality check (and leaving it
unchanged otherwise), every validator step preserves the configured cap,
the generator and formatter stages leave it unchanged, and across the whole
regeneration loop the counter is monotone non-decreasing and never exceeds
`max_regeneration_attempts`. -/
theorem c6_monotone_counter :
    (∀ (vh : List Q) (s s' : WState) (q : QualityCheckResult),
      perform_quality_checks (s.generated_content.getD "")
          s.personality_state.dimensions s.processing_config
          ({} : PersonalityDimensions).tomato_obsession_level vh = .ok q →
      quality_validator_logic vh s = .ok s' →
      ((s'.regeneration_count = s.regeneration_count + 1 ∧ s'.quality_passed = false ∧
          s.regeneration_count < s.processing_config.max_regeneration_attempts) ∨
        (s'.regeneration_count = s.regeneration_count ∧
          ¬(s'.quality_passed = false ∧
            s.regeneration_count < s.processing_config.max_regeneration_attempts)))) ∧
    (∀ (vh : List Q) (f : Option String) (s : WState),
      s.regeneration_count ≤ s.processing_config.max_regeneration_attempts →
      (exec_node "quality_validator" (quality_validator_logic vh) f s).regeneration_count
        ≤ s.processing_config.max_regeneration_attempts) ∧
    (∀ (g : String) (f : Option String) (s : WState),
      (exec_node "response_generator" (response_generator_logic g) f s).regeneration_count
        = s.regeneration_count) ∧
    (∀ (f : Option String) (s : WState),
      (exec_node "output_formatter" output_formatter_logic f s).regeneration_count
        = s.regeneration_count) ∧
    (∀ (col : Collab) (gens : Nat) (s : WState),
      col.fail_at ≠ some "output_formatter" →
      s.regeneration_count ≤ s.processing_config.max_regeneration_attempts →
      s.regeneration_count ≤ (run_from_generator col gens s).regeneration_count ∧
      (run_from_generator col gens s).regeneration_count
        ≤ s.processing_config.max_regeneration_attempts) := by
  refine ⟨?_, ?_, ?_, ?_, ?_⟩
  · intro vh s s' q hperf hlog
    rw [quality_validator_logic_eq, hperf] at hlog
    dsimp only at hlog
    by_cases hr : is_regeneration_needed (add_quality_check s q) = true
    · rw [if_pos hr] at hlog
      simp only [Except.ok.injEq] at hlog
      subst hlog
      rw [is_regen_add_qc] at hr
      simp only [Bool.and_eq_true, Bool.not_eq_eq_eq_not, Bool.not_true,
        decide_eq_true_eq] at hr
      exact .inl ⟨rfl, hr.1, hr.2⟩
    · rw [if_neg hr] at hlog
      simp only [Except.ok.injEq] at hlog
      subst hlog
      rw [is_regen_add_qc] at hr
      simp only [Bool.and_eq_true, Bool.not_eq_eq_eq_not, Bool.not_true,
        decide_eq_true_eq, not_and] at hr
      exact .inr ⟨rfl, fun hh => hr hh.1 hh.2⟩
  · intro vh f s hle
    obtain ⟨h1, h2, h3⟩ := exec_val_step vh f s
    rcases h2 with h2 | ⟨h2, h2'⟩
    · rw [h2]; exact hle
    · rw [h2]; omega
  · intro g f s
    exact (exec_gen_facts g f s).2
  · intro f s
    exact exec_node_count _ _ f s (fun a b hab => (fmt_logic_preserves a b hab).2.2.2)
  · intro col gens s hff hle
    obtain ⟨l1, l2, l3, l4, l5, l6, l7⟩ := run_loop_main col hff
      (s.processing_config.max_regeneration_attempts + 1 - s.regeneration_count)
      gens s (le_refl _)
    exact ⟨l5, l6 hle⟩

/-- A concrete state about to enter the quality validator. -/
def c6_state : WState :=
  { create_initial_state "make pasta" "s1" with
      generated_content := some "x"
      current_stage := .quality_checked }

/-- The state the validator produces from `c6_state` (content "x" fails
the check, so the counter is incremented). -/
def c6_state_after : WState :=
  update_stage
    { add_quality_check c6_state c2_q with
        regeneration_count := (add_quality_check c6_state c2_q).regeneration_count + 1 }
    .processing

/-- Witness for C6 at a concrete mid-run state. -/
theorem c6_monotone_counter_witness :
    ((c6_state_after.regeneration_count = c6_state.regeneration_count + 1 ∧
        c6_state_after.quality_passed = false ∧
        c6_state.regeneration_count
          < c6_state.processing_config.max_regeneration_attempts) ∨
      (c6_state_after.regeneration_count = c6_state.regeneration_count ∧
        ¬(c6_state_after.quality_passed = false ∧
          c6_state.regeneration_count
            < c6_state.processing_config.max_regeneration_attempts))) ∧
    (exec_node "quality_validator" (quality_validator_logic []) none
        c6_state).regeneration_count
      ≤ c6_state.processing_config.max_regeneration_attempts ∧
    (exec_node "response_generator" (response_generator_logic "x") none
        c6_state).regeneration_count = c6_state.regeneration_count ∧
    (exec_node "output_formatter" output_formatter_logic none
        c6_state).regeneration_count = c6_state.regeneration_count ∧
    (c6_state.regeneration_count
        ≤ (run_from_generator c2_col 0 c6_state).regeneration_count ∧
      (run_from_generator c2_col 0 c6_state).regeneration_count
        ≤ c6_state.processing_config.max_regeneration_attempts) :=
  ⟨c6_monotone_counter.1 [] c6_state c6_state_after c2_q rfl rfl,
   c6_monotone_counter.2.1 [] none c6_state (by decide),
   c6_monotone_counter.2.2.1 "x" none c6_state,
   c6_monotone_counter.2.2.2.1 none c6_state,
   c6_monotone_counter.2.2.2.2 c2_col 0 c6_state (by decide) (by decide)⟩

/-- The mood update step touches only the mood fields: the consistency
history, the state context and the config pass through unchanged. -/
lemma update_mood_preserves (r : Rng) (k : Nat) (eng : PersonalityEngine)
    (content : String) :
    (update_mood_from_input r k eng content).1.consistency_history
      = eng.consistency_history ∧
    (update_mood_from_input r k eng content).1.state.context = eng.state.context ∧
    (update_mood_from_input r k eng content).1.config = eng.config := by
  rw [update_mood_from_input]
  dsimp only
  split
  · exact ⟨rfl, rfl, rfl⟩
  · split
    · exact ⟨rfl, rfl, rfl⟩
    · split
      · exact ⟨rfl, rfl, rfl⟩
      · exact ⟨rfl, rfl, rfl⟩

set_option maxHeartbeats 4000000 in
/-- C8 (amended): stage executions as modelled confine their effects to
the state value they are given, but the persona engine collaborator does
not stay unchanged by `process_input`: every successful call appends the
new consistency score to the engine's shared `_consistency_history`
(dropping the oldest entry beyond 100) and, when a context is supplied,
overwrites the engine's shared `_state.context` with it — per-request
mutable data thus lives in the singleton engine held by the filter node,
and two requests through the same node instance interfere. -/
theorem c8_engine_state_mutation (r : Rng) (k : Nat) (eng : PersonalityEngine)
    (content : String) (ctx : Option PersonalityContext)
    (resp : PersonalityResponseM) (eng2 : PersonalityEngine) (k2 : Nat)
    (h : engine_process_input r k eng (some content) ctx = .ok (resp, eng2, k2)) :
    eng2.consistency_history.length
      = (if 100 < eng.consistency_history.length + 1
          then eng.consistency_history.length
          else eng.consistency_history.length + 1) ∧
    (∀ c0, ctx = some c0 → eng2.state.context = c0) ∧
    eng2.config = eng.config := by
  rcases ctx with _ | c0
  · rw [engine_process_input] at h
    dsimp only at h
    simp only [Except.ok.injEq, Prod.mk.injEq] at h
    obtain ⟨h1, h2, h3⟩ := h
    obtain ⟨hm1, hm2, hm3⟩ := update_mood_preserves r k eng content
    subst h2
    refine ⟨?_, ?_, ?_⟩
    · dsimp only
      rw [hm1]
      by_cases hlen : 100 < eng.consistency_history.length + 1
      · rw [if_pos (by simpa using hlen), if_pos hlen]
        simp
      · rw [if_neg (by simpa using hlen), if_neg hlen]
        simp
    · intro c0 hc0
      exact Option.noConfusion hc0
    · dsimp only
      rw [hm3]
  · rw [engine_process_input] at h
    dsimp only at h
    simp only [Except.ok.injEq, Prod.mk.injEq] at h
    obtain ⟨h1, h2, h3⟩ := h
    obtain ⟨hm1, hm2, hm3⟩ := update_mood_preserves r k
      { eng with state := { eng.state with context := c0 } } content
    subst h2
    refine ⟨?_, ?_, ?_⟩
    · dsimp only
      rw [hm1]
      by_cases hlen : 100 < eng.consistency_history.length + 1
      · rw [if_pos (by simpa using hlen), if_pos hlen]
        simp
      · rw [if_neg (by simpa using hlen), if_neg hlen]
        simp
    · intro c1 hc1
      cases hc1
      dsimp only
      rw [hm2]
    · dsimp only
      rw [hm3]

/-- A randomness oracle whose uniform draws always land at 0.99, so every
probability-gated transformation is skipped. -/
def c8_rng : Rng := { uniform := fun _ => ⟨99, 100⟩, choice := fun _ => 0 }

/-- An inert response value used only for the unreachable error branch of
the extractors below. -/
def c8_fallback : PersonalityResponseM :=
  { content := "", personality_state := {}, consistency_score := ⟨0, 1⟩,
    tomato_integration_score := ⟨0, 1⟩, romantic_elements := [] }

/-- The response of one concrete engine call on "hello". -/
def c8_resp : PersonalityResponseM :=
  match engine_process_input c8_rng 0 {} (some "hello") none with
  | .ok (p, _, _) => p
  | .error _ => c8_fallback

/-- The engine as returned (i.e. as mutated) by that same call. -/
def c8_engine_after : PersonalityEngine :=
  match engine_process_input c8_rng 0 {} (some "hello") none with
  | .ok (_, e, _) => e
  | .error _ => {}

/-- The draw counter after that same call. -/
def c8_draws : Nat :=
  match engine_process_input c8_rng 0 {} (some "hello") none with
  | .ok (_, _, n) => n
  | .error _ => 0

set_option maxHeartbeats 4000000 in
/-- Counterexample to C8 as stated: processing one request through a
fresh engine leaves the engine's consistency history changed, so the
persona engine does not stay unchanged by executing a request. -/
theorem c8_engine_not_unchanged :
    c8_engine_after.consistency_history
      ≠ ({} : PersonalityEngine).consistency_history := by
  decide

set_option maxHeartbeats 4000000 in
/-- Witness for C8 at the concrete call of `c8_engine_after`. -/
theorem c8_engine_state_mutation_witness :
    c8_engine_after.consistency_history.length
      = (if 100 < ({} : PersonalityEngine).consistency_history.length + 1
          then ({} : PersonalityEngine).consistency_history.length
          else ({} : PersonalityEngine).consistency_history.length + 1) ∧
    (∀ c0, (none : Option PersonalityContext) = some c0 →
      c8_engine_after.state.context = c0) ∧
    c8_engine_after.config = ({} : PersonalityEngine).config :=
  c8_engine_state_mutation c8_rng 0 {} "hello" none c8_resp c8_engine_after c8_draws rfl
